import Mathlib

/-!
Verification of the 16personalities tracker backend (`src/api/check-time.js`).

The source file is a concatenation of four serverless handler modules:
  * a diagnostic `check-time` handler (lines 1-39),
  * the consolidated log handler (lines 39-316) with `validateCommonFields`,
    `isValidTraitObject`, `validateAnswers`, `validateTestResult`,
    `handleEvent`, `handleAnswers`, `handleTestResult` and a routing
    `handler` with an outer catch,
  * a first `log-answers` variant (lines 316-421) that swallows database
    errors on the event path and discriminates errors by message text,
  * a second `log-answers` variant (lines 421-631) whose answers branch
    validates while building the statements, all before execution.

JavaScript values reachable from a parsed JSON body (plus `undefined`,
which arises from absent-property reads) are embedded as `JSValue`;
JavaScript numbers are embedded as rationals plus the three non-finite
IEEE values, with the IEEE comparison semantics (`NaN` incomparable).
Thrown JavaScript errors are embedded as `Except JSError`.
The database client is embedded as an outcome oracle `Except String Unit`:
single-statement execution and the multi-statement transaction primitive
of the store are atomic per the store contract, so a successful call
persists all of its rows and a failed call persists none.
-/

/-- JavaScript numbers: rationals plus the non-finite IEEE values.
JavaScript `-0` is identified with `0` (they compare equal and are both
falsy); the decimal rendering of a double is approximated by the exact
rational value. -/
inductive JSNum where
  | nan
  | posInf
  | negInf
  | fin (q : ℚ)
deriving DecidableEq

/-- JavaScript `<` on numbers: any comparison with `NaN` is false. -/
def JSNum.lt : JSNum → JSNum → Bool
  | .nan, _ => false
  | _, .nan => false
  | _, .negInf => false
  | .negInf, _ => true
  | .posInf, _ => false
  | .fin _, .posInf => true
  | .fin a, .fin b => decide (a < b)

/-- JavaScript `>` on numbers. -/
def JSNum.gt (a b : JSNum) : Bool := JSNum.lt b a

/-- JavaScript values produced by `JSON.parse` plus `undefined`. -/
inductive JSValue where
  | vUndefined
  | vNull
  | vBool (b : Bool)
  | vNum (n : JSNum)
  | vStr (s : String)
  | vObj (fields : List (String × JSValue))
  | vArr (elems : List JSValue)

/-- JavaScript truthiness. -/
def truthy : JSValue → Bool
  | .vUndefined => false
  | .vNull => false
  | .vBool b => b
  | .vNum .nan => false
  | .vNum (.fin q) => decide (q ≠ 0)
  | .vNum _ => true
  | .vStr s => decide (s ≠ "")
  | .vObj _ => true
  | .vArr _ => true

/-- `typeof v === 'string'`. -/
def isStringV : JSValue → Bool
  | .vStr _ => true
  | _ => false

/-- `typeof v === 'object'` (true for objects, arrays and `null`). -/
def isObjType : JSValue → Bool
  | .vObj _ => true
  | .vArr _ => true
  | .vNull => true
  | _ => false

/-- `v === undefined`. -/
def isUndef : JSValue → Bool
  | .vUndefined => true
  | _ => false

/-- `v === null`. -/
def isNullV : JSValue → Bool
  | .vNull => true
  | _ => false

/-- `v === s` for a string literal `s`. -/
def isStrEq (v : JSValue) (s : String) : Bool :=
  match v with
  | .vStr t => t == s
  | _ => false

/-- The string payload of a string value (used only under a string guard). -/
def strVal : JSValue → String
  | .vStr s => s
  | _ => ""

/-- Thrown JavaScript errors: the repository's `ValidationError` class, the
plain `Error`s thrown by the log-answers variants, the variant-two errors
marked with an `isValidationError` flag, engine `TypeError`s from property
reads on `null`/`undefined`, engine `SyntaxError`s from JSON parsing (never
raised inside the model because the body arrives parsed), and database
errors surfaced as thrown values. -/
inductive JSError where
  | validationError (msg : String)
  | genericError (msg : String)
  | flaggedError (msg : String)
  | typeError (msg : String)
  | syntaxError (msg : String)
deriving DecidableEq

/-- `error.message`. -/
def errMsg : JSError → String
  | .validationError m => m
  | .genericError m => m
  | .flaggedError m => m
  | .typeError m => m
  | .syntaxError m => m

/-- Property read `base[f]`: throws `TypeError` on `null`/`undefined`,
returns the field of an object (`undefined` when absent), and `undefined`
for primitive bases (boxing introduces no own properties used here). -/
def getField (base : JSValue) (f : String) : Except JSError JSValue :=
  match base with
  | .vUndefined => .error (.typeError ("Cannot read properties of undefined (reading " ++ f ++ ")"))
  | .vNull => .error (.typeError ("Cannot read properties of null (reading " ++ f ++ ")"))
  | .vObj fields => .ok ((fields.lookup f).getD .vUndefined)
  | _ => .ok .vUndefined

/-- Total property read, used where the base is already known to be
neither `null` nor `undefined` (it agrees with `getField` there). -/
def getFieldD (base : JSValue) (f : String) : JSValue :=
  match base with
  | .vObj fields => (fields.lookup f).getD .vUndefined
  | _ => .vUndefined

/-- JavaScript `a || b`. -/
def jsOr (a b : JSValue) : JSValue := if truthy a then a else b

/-- `pat.isPrefixOf`-style character test for `String.prototype.startsWith`:
`startsWithChars pat s` holds when the character list `s` begins with `pat`. -/
def startsWithChars : List Char → List Char → Bool
  | [], _ => true
  | _ :: _, [] => false
  | p :: ps, c :: cs => p == c && startsWithChars ps cs

/-- `s.startsWith(pat)`. -/
def startsWithB (s pat : String) : Bool := startsWithChars pat.toList s.toList

/-- Decimal rendering of a JavaScript number, approximated by the exact
rational value (only integral values appear in claim-relevant strings). -/
def renderNum : JSNum → String
  | .nan => "NaN"
  | .posInf => "Infinity"
  | .negInf => "-Infinity"
  | .fin q => if q.den = 1 then toString q.num else toString q.num ++ "/" ++ toString q.den

/-- String interpolation of a value in a template literal. Array and object
interpolation is approximated; only string `eventName`s are claim-relevant. -/
def templateStr : JSValue → String
  | .vUndefined => "undefined"
  | .vNull => "null"
  | .vBool true => "true"
  | .vBool false => "false"
  | .vNum n => renderNum n
  | .vStr s => s
  | .vArr _ => ""
  | .vObj _ => "[object Object]"

mutual
/-- Model of the builtin `JSON.stringify`, used only to build the
"Invalid answer format" messages. String escaping is approximated by plain
quoting and `undefined`-valued object fields are rendered rather than
omitted; the rendering is only an identifier inside an error message. -/
def strJ : JSValue → String
  | .vUndefined => "undefined"
  | .vNull => "null"
  | .vBool true => "true"
  | .vBool false => "false"
  | .vNum n => renderNum n
  | .vStr s => "\"" ++ s ++ "\""
  | .vArr es => "[" ++ strJList es ++ "]"
  | .vObj fs => "\x7b" ++ strJFields fs ++ "\x7d"

/-- Comma-separated rendering of array elements for `strJ`. -/
def strJList : List JSValue → String
  | [] => ""
  | [e] => strJ e
  | e :: e2 :: rest => strJ e ++ "," ++ strJList (e2 :: rest)

/-- Comma-separated rendering of object fields for `strJ`. -/
def strJFields : List (String × JSValue) → String
  | [] => ""
  | [(k, v)] => "\"" ++ k ++ "\":" ++ strJ v
  | (k, v) :: f2 :: rest => "\"" ++ k ++ "\":" ++ strJ v ++ "," ++ strJFields (f2 :: rest)
end

/-- The validated common fields, as returned by `validateCommonFields`. -/
structure CommonFields where
  userId : String
  sessionId : String
  timestamp : String
deriving DecidableEq

/-- `validateCommonFields` (check-time.js lines 45-61): each of `userId`,
`sessionId`, `timestamp` must be truthy and a string, otherwise a
`ValidationError` is thrown; the three fields are returned. -/
def validateCommonFields (payload : JSValue) : Except JSError CommonFields :=
  match getField payload "userId", getField payload "sessionId", getField payload "timestamp" with
  | .error e, _, _ => .error e
  | .ok _, .error e, _ => .error e
  | .ok _, .ok _, .error e => .error e
  | .ok u, .ok s, .ok t =>
    if !truthy u || !isStringV u then
      .error (.validationError "Missing or invalid userId (string required)")
    else if !truthy s || !isStringV s then
      .error (.validationError "Missing or invalid sessionId (string required)")
    else if !truthy t || !isStringV t then
      .error (.validationError "Missing or invalid timestamp (string required)")
    else
      .ok ⟨strVal u, strVal s, strVal t⟩

/-- The per-trait disjunction inside `isValidTraitObject` (lines 68-74):
`!traits[trait] || typeof percent !== 'number' || percent < 0 ||
percent > 100 || typeof type !== 'string' || type.trim() === ''`.
The percent tests are grouped by the guarded field read; the short-circuit
makes the grouping value-equal to the source condition. -/
def percentBad : JSValue → Bool
  | .vNum n => n.lt (.fin 0) || n.gt (.fin 100)
  | _ => true

/-- The whitespace set stripped by `String.prototype.trim`: the
ECMAScript WhiteSpace code points (TAB, VT, FF, SP, NBSP, ZWNBSP and the
Unicode space separators U+1680, U+2000-U+200A, U+202F, U+205F, U+3000)
and LineTerminator code points (LF, CR, LS, PS). -/
def isWhite (c : Char) : Bool :=
  c == ' ' || c == '\t' || c == '\n' || c == '\r' || c == '\x0b' || c == '\x0c' ||
    c == '\u00A0' || c == '\uFEFF' || c == '\u1680' ||
    (0x2000 ≤ c.toNat && c.toNat ≤ 0x200A) ||
    c == '\u2028' || c == '\u2029' || c == '\u202F' || c == '\u205F' || c == '\u3000'

/-- Model of `String.prototype.trim`: strip leading and trailing
whitespace. -/
def jsTrim (s : String) : String :=
  String.mk (((s.toList.dropWhile isWhite).reverse.dropWhile isWhite).reverse)

/-- `typeof type !== 'string' || type.trim() === ''` (lines 72-73). -/
def typeBad : JSValue → Bool
  | .vStr s => jsTrim s == ""
  | _ => true

/-- One iteration of the trait loop body: the entry fails validation. -/
def traitBad (t : JSValue) : Bool :=
  !truthy t || percentBad (getFieldD t "percent") || typeBad (getFieldD t "type")

/-- The five required trait keys (line 65). -/
def requiredTraits : List String := ["mind", "energy", "nature", "tactics", "identity"]

/-- `isValidTraitObject` (lines 63-80): the traits argument must be a
truthy `object` and every required trait entry must pass the loop check.
The field reads inside the loop are guarded by `!traits[trait]`
short-circuiting, so the total read `getFieldD` is value-equal. -/
def isValidTraitObject (traits : JSValue) : Bool :=
  if !truthy traits || !isObjType traits then false
  else requiredTraits.all (fun tr => !traitBad (getFieldD traits tr))

/-- The per-element disjunction inside `validateAnswers` (lines 88-93):
`question_number === undefined || question_number === null ||
!question_text || answer_value === undefined`. All three reads throw
together exactly when the element is `null`/`undefined`, so evaluating
them up front is value-equal to the short-circuit order of the source. -/
def answerBad (a : JSValue) : Except JSError Bool :=
  match getField a "question_number", getField a "question_text", getField a "answer_value" with
  | .error e, _, _ => .error e
  | .ok _, .error e, _ => .error e
  | .ok _, .ok _, .error e => .error e
  | .ok qn, .ok qt, .ok av =>
    .ok (isUndef qn || isNullV qn || !truthy qt || isUndef av)

/-- The total per-element check, agreeing with `answerBad` on elements
that are not `null`/`undefined`. -/
def badB (a : JSValue) : Bool :=
  isUndef (getFieldD a "question_number") || isNullV (getFieldD a "question_number") ||
    !truthy (getFieldD a "question_text") || isUndef (getFieldD a "answer_value")

/-- The `ValidationError` message for an invalid element (lines 94-96). -/
def invalidAnswerMsg (a : JSValue) : String :=
  "Invalid answer format in array: " ++ strJ a

/-- The `answers.forEach` loop of `validateAnswers` (lines 87-98): throws
at the first invalid element. -/
def checkAnswersList : List JSValue → Except JSError Unit
  | [] => .ok ()
  | a :: rest =>
    match answerBad a with
    | .error e => .error e
    | .ok true => .error (.validationError (invalidAnswerMsg a))
    | .ok false => checkAnswersList rest

/-- `validateAnswers` (lines 82-101): requires a non-empty array, checks
every element, and returns the sequence unchanged. -/
def validateAnswers (v : JSValue) : Except JSError (List JSValue) :=
  match v with
  | .vArr answers =>
    if answers.isEmpty then
      .error (.validationError "Missing or empty \"answers\" array")
    else
      match checkAnswersList answers with
      | .error e => .error e
      | .ok _ => .ok answers
  | _ => .error (.validationError "Missing or empty \"answers\" array")

/-- The expected profile-URL origin path (line 107). -/
def resultUrlStart : String := "https://www.16personalities.com/profiles/"

/-- The validated result fields, as returned by `validateTestResult`. -/
structure ResultFields where
  profileUrl : JSValue
  mbtiResult : JSValue
  mbtiCode : JSValue
  traits : JSValue

/-- `validateTestResult` (lines 103-125). -/
def validateTestResult (payload : JSValue) : Except JSError ResultFields :=
  match getField payload "profileUrl", getField payload "mbtiResult",
        getField payload "mbtiCode", getField payload "traits" with
  | .error e, _, _, _ => .error e
  | .ok _, .error e, _, _ => .error e
  | .ok _, .ok _, .error e, _ => .error e
  | .ok _, .ok _, .ok _, .error e => .error e
  | .ok profileUrl, .ok mbtiResult, .ok mbtiCode, .ok traits =>
    if !truthy profileUrl || !isStringV profileUrl ||
        !startsWithB (strVal profileUrl) resultUrlStart then
      .error (.validationError "Missing or invalid profileUrl format")
    else if !truthy mbtiResult || !isStringV mbtiResult then
      .error (.validationError "Missing or invalid mbtiResult (full string)")
    else if truthy mbtiCode && !isStringV mbtiCode then
      .error (.validationError "Invalid mbtiCode format (should be string or null)")
    else if !isValidTraitObject traits then
      .error (.validationError "Invalid or incomplete traits object")
    else
      .ok ⟨profileUrl, mbtiResult, mbtiCode, traits⟩

/-- A parameterized insert statement, identified by its target table and
parameter values in source order. -/
inductive Row where
  | eventRow (userId sessionId : String) (eventName : JSValue) (timestamp : String)
  | answerRow (userId sessionId : String)
      (questionNumber questionText answerValue answerLabel : JSValue) (timestamp : String)
  | resultRow (userId sessionId : String) (mbtiType profileUrl : JSValue)
      (mindP mindT energyP energyT natureP natureT tacticsP tacticsT identityP identityT : JSValue)
      (timestamp : String)

/-- A database call: a single awaited statement or `sql.transaction`. -/
inductive DbCall where
  | single (r : Row)
  | transaction (rs : List Row)

/-- The rows a call would persist. -/
def rowsOf : DbCall → List Row
  | .single r => [r]
  | .transaction rs => rs

/-- Executing a call against the store outcome oracle. Per the store
contract both single-statement execution and the multi-statement
transaction primitive are atomic: success persists every row of the call,
failure persists none and surfaces the underlying error message. -/
def execCall (c : DbCall) (db : Except String Unit) : Except String (List Row) :=
  match db with
  | .ok _ => .ok (rowsOf c)
  | .error m => .error m

/-- An HTTP response: status code, `message` body field, optional `error`
body field. -/
structure HttpResponse where
  status : Nat
  message : String
  error : Option String := none
deriving DecidableEq

/-- The observable outcome of one invocation: the response, the database
calls attempted, and the rows actually persisted. -/
structure HandlerResult where
  resp : HttpResponse
  calls : List DbCall
  committed : List Row

/-- `handleEvent` (lines 128-151): validate common fields, insert one
`test_events` row, map a store failure to a 500 response carrying the
underlying message. Thrown validation errors propagate to the caller. -/
def handleEvent (payload : JSValue) (db : Except String Unit) : Except JSError HandlerResult :=
  match validateCommonFields payload with
  | .error e => .error e
  | .ok cf =>
    match getField payload "eventName" with
    | .error e => .error e
    | .ok en =>
      let call := DbCall.single (.eventRow cf.userId cf.sessionId en cf.timestamp)
      match execCall call db with
      | .ok rows =>
        .ok ⟨⟨200, templateStr en ++ " event received (logged server-side)", none⟩, [call], rows⟩
      | .error m =>
        .ok ⟨⟨500, "Error logging " ++ templateStr en ++ " event", some m⟩, [call], []⟩

/-- The statement built for one answer (lines 160-168 and, identically,
lines 525-531 and 733-738): a falsy `answer_label` is replaced by `'N/A'`
via `answer.answer_label || 'N/A'`. The field reads are total because
every element reaching the construction has passed the per-element check,
which throws on `null`/`undefined` elements. -/
def buildAnswerQuery (cf : CommonFields) (a : JSValue) : Row :=
  .answerRow cf.userId cf.sessionId
    (getFieldD a "question_number") (getFieldD a "question_text")
    (getFieldD a "answer_value") (jsOr (getFieldD a "answer_label") (.vStr "N/A"))
    cf.timestamp

/-- `handleAnswers` (lines 153-184): validate common fields and the
answers array (both before the `try`, so their throws propagate), build
one insert statement per answer, then execute them in a single
transaction; a transaction failure is mapped to a 500 response. -/
def handleAnswers (payload : JSValue) (db : Except String Unit) : Except JSError HandlerResult :=
  match validateCommonFields payload with
  | .error e => .error e
  | .ok cf =>
    match getField payload "answers" with
    | .error e => .error e
    | .ok answersVal =>
      match validateAnswers answersVal with
      | .error e => .error e
      | .ok answers =>
        let queries := answers.map (buildAnswerQuery cf)
        let call := DbCall.transaction queries
        match execCall call db with
        | .ok rows =>
          .ok ⟨⟨201, "Successfully logged " ++ toString answers.length ++ " answers.", none⟩,
               [call], rows⟩
        | .error m =>
          .ok ⟨⟨500, "Database error inserting answers", some m⟩, [call], []⟩

/-- The trait subfield read `traits[k][f]`, total because
`validateTestResult` has established that every required entry is truthy. -/
def traitField (traits : JSValue) (k f : String) : JSValue :=
  getFieldD (getFieldD traits k) f

/-- `handleTestResult` (lines 186-222): validate, insert one
`test_results` row (the consolidated handler stores `mbtiCode` in the
`mbti_type` column and drops `mbtiResult`), map store failure to 500. -/
def handleTestResult (payload : JSValue) (db : Except String Unit) : Except JSError HandlerResult :=
  match validateCommonFields payload with
  | .error e => .error e
  | .ok cf =>
    match validateTestResult payload with
    | .error e => .error e
    | .ok rf =>
      let row := Row.resultRow cf.userId cf.sessionId rf.mbtiCode rf.profileUrl
        (traitField rf.traits "mind" "percent") (traitField rf.traits "mind" "type")
        (traitField rf.traits "energy" "percent") (traitField rf.traits "energy" "type")
        (traitField rf.traits "nature" "percent") (traitField rf.traits "nature" "type")
        (traitField rf.traits "tactics" "percent") (traitField rf.traits "tactics" "type")
        (traitField rf.traits "identity" "percent") (traitField rf.traits "identity" "type")
        cf.timestamp
      let call := DbCall.single row
      match execCall call db with
      | .ok rows => .ok ⟨⟨201, "Test result logged successfully.", none⟩, [call], rows⟩
      | .error m => .ok ⟨⟨500, "Database error inserting test result", some m⟩, [call], []⟩

/-- The `try` block of the consolidated handler (lines 263-289): payload
shape gate, then routing on `type` plus, for events, `eventName`. -/
def routeRequest (payload : JSValue) (db : Except String Unit) : Except JSError HandlerResult :=
  if !truthy payload || !isObjType payload then
    .ok ⟨⟨400, "Invalid payload format. Expected JSON object.", none⟩, [], []⟩
  else
    if isStrEq (getFieldD payload "type") "event" &&
        (isStrEq (getFieldD payload "eventName") "test_started" ||
         isStrEq (getFieldD payload "eventName") "test_finished") then
      handleEvent payload db
    else if isStrEq (getFieldD payload "type") "answers" then
      handleAnswers payload db
    else if isStrEq (getFieldD payload "type") "result" then
      handleTestResult payload db
    else
      .ok ⟨⟨400, "Invalid payload type specified: '" ++ templateStr (getFieldD payload "type") ++ "'",
            none⟩, [], []⟩

/-- The consolidated handler's POST path with its outer catch
(lines 291-315): `ValidationError` maps to 400, `SyntaxError` to 400,
anything else to 500. -/
def handlePost (body : JSValue) (db : Except String Unit) : HandlerResult :=
  match routeRequest body db with
  | .ok r => r
  | .error (.validationError m) => ⟨⟨400, "Data validation failed", some m⟩, [], []⟩
  | .error (.syntaxError m) => ⟨⟨400, "Invalid JSON format", some m⟩, [], []⟩
  | .error e => ⟨⟨500, "Internal Server Error processing request.", some (errMsg e)⟩, [], []⟩

/-- The consolidated handler (lines 248-316): OPTIONS preflight, method
gate, then the guarded POST path. -/
def mainHandler (method : String) (body : JSValue) (db : Except String Unit) : HandlerResult :=
  if method == "OPTIONS" then ⟨⟨200, "", none⟩, [], []⟩
  else if method != "POST" then ⟨⟨405, "Method Not Allowed", none⟩, [], []⟩
  else handlePost body db

/-- The `answers.map` of the first log-answers variant (lines 384-397):
validation interleaved with construction, throwing a plain `Error` at the
first invalid element; the built statement stores `answer.answer_label`
as supplied, without the `|| 'N/A'` default. -/
def v1MapQueries (userId sessionId timestamp : String) :
    List JSValue → Except JSError (List Row)
  | [] => .ok []
  | a :: rest =>
    match answerBad a with
    | .error e => .error e
    | .ok true => .error (.genericError (invalidAnswerMsg a))
    | .ok false =>
      match v1MapQueries userId sessionId timestamp rest with
      | .error e => .error e
      | .ok qs =>
        .ok (Row.answerRow userId sessionId
          (getFieldD a "question_number") (getFieldD a "question_text")
          (getFieldD a "answer_value") (getFieldD a "answer_label") timestamp :: qs)

/-- The answers branch of the first log-answers variant (lines 374-403).
A transaction failure is rethrown to the variant's outer catch; the calls
attempted before such a throw are not tracked on the error path, but no
row is committed there. -/
def v1Answers (userId sessionId timestamp : String) (answersVal : JSValue)
    (db : Except String Unit) : Except JSError HandlerResult :=
  match answersVal with
  | .vArr answers =>
    if answers.isEmpty then
      .ok ⟨⟨400, "Missing or empty \"answers\" array.", none⟩, [], []⟩
    else
      match v1MapQueries userId sessionId timestamp answers with
      | .error e => .error e
      | .ok queries =>
        match execCall (.transaction queries) db with
        | .ok rows =>
          .ok ⟨⟨201, "Successfully logged " ++ toString answers.length ++ " answers.", none⟩,
               [.transaction queries], rows⟩
        | .error m => .error (.genericError m)
  | _ => .ok ⟨⟨400, "Missing or empty \"answers\" array.", none⟩, [], []⟩

/-- The `try` block of the first log-answers variant (lines 341-407):
payload gate, inline common-field check returning 400, then routing.
The event branch (lines 357-372) catches the database error internally,
only logs it, and sends the 200 success response regardless. -/
def v1Route (payload : JSValue) (db : Except String Unit) : Except JSError HandlerResult :=
  if !truthy payload || !isObjType payload then
    .ok ⟨⟨400, "Invalid payload format. Expected JSON object.", none⟩, [], []⟩
  else
    if !truthy (getFieldD payload "userId") || !truthy (getFieldD payload "sessionId") ||
        !truthy (getFieldD payload "timestamp") ||
        !isStringV (getFieldD payload "userId") || !isStringV (getFieldD payload "sessionId") ||
        !isStringV (getFieldD payload "timestamp") then
      .ok ⟨⟨400,
            "Missing or invalid required fields: userId (string), sessionId (string), timestamp (string)",
            none⟩, [], []⟩
    else
      if isStrEq (getFieldD payload "type") "event" &&
          (isStrEq (getFieldD payload "eventName") "test_started" ||
           isStrEq (getFieldD payload "eventName") "test_finished") then
        let en := getFieldD payload "eventName"
        let call := DbCall.single (.eventRow (strVal (getFieldD payload "userId"))
          (strVal (getFieldD payload "sessionId")) en (strVal (getFieldD payload "timestamp")))
        match execCall call db with
        | .ok rows =>
          .ok ⟨⟨200, templateStr en ++ " event received (logged server-side)", none⟩, [call], rows⟩
        | .error _ =>
          .ok ⟨⟨200, templateStr en ++ " event received (logged server-side)", none⟩, [call], []⟩
      else if isStrEq (getFieldD payload "type") "answers" then
        v1Answers (strVal (getFieldD payload "userId")) (strVal (getFieldD payload "sessionId"))
          (strVal (getFieldD payload "timestamp")) (getFieldD payload "answers") db
      else
        .ok ⟨⟨400, "Invalid payload type specified.", none⟩, [], []⟩

/-- The POST path of the first log-answers variant with its outer catch
(lines 409-420): errors whose message starts with "Invalid answer format"
or "Missing" map to 400, anything else to 500. -/
def v1Post (body : JSValue) (db : Except String Unit) : HandlerResult :=
  match v1Route body db with
  | .ok r => r
  | .error e =>
    if startsWithB (errMsg e) "Invalid answer format" || startsWithB (errMsg e) "Missing" then
      ⟨⟨400, "Data validation failed", some (errMsg e)⟩, [], []⟩
    else
      ⟨⟨500, "Internal Server Error processing request.", some (errMsg e)⟩, [], []⟩

/-- The first log-answers variant handler (lines 323-421). -/
def logAnswersV1 (method : String) (body : JSValue) (db : Except String Unit) : HandlerResult :=
  if method == "OPTIONS" then ⟨⟨200, "", none⟩, [], []⟩
  else if method != "POST" then ⟨⟨405, "Method Not Allowed", none⟩, [], []⟩
  else v1Post body db

/-- The `answers.map` of the second log-answers variant (lines 516-531):
validation interleaved with construction, throwing an error marked with
`isValidationError` at the first invalid element; the built statement is
the same as `buildAnswerQuery`, with the `|| 'N/A'` label default. -/
def v2MapQueries (cf : CommonFields) : List JSValue → Except JSError (List Row)
  | [] => .ok []
  | a :: rest =>
    match answerBad a with
    | .error e => .error e
    | .ok true => .error (.flaggedError (invalidAnswerMsg a))
    | .ok false =>
      match v2MapQueries cf rest with
      | .error e => .error e
      | .ok qs => .ok (buildAnswerQuery cf a :: qs)

/-- The answers branch of the second log-answers variant (lines 504-561):
array gate, then a preparation stage building and validating every
statement, then a transaction stage; a flagged validation error maps to
400, any other preparation error to 500, a transaction failure to 500. -/
def v2AnswersBranch (cf : CommonFields) (answersVal : JSValue) (db : Except String Unit) :
    HandlerResult :=
  match answersVal with
  | .vArr answers =>
    if answers.isEmpty then
      ⟨⟨400, "Missing or empty \"answers\" array.", none⟩, [], []⟩
    else
      match v2MapQueries cf answers with
      | .error (.flaggedError m) =>
        ⟨⟨400, "Data validation failed for answers", some m⟩, [], []⟩
      | .error e =>
        ⟨⟨500, "Internal server error processing answers", some (errMsg e)⟩, [], []⟩
      | .ok queries =>
        match execCall (.transaction queries) db with
        | .ok rows =>
          ⟨⟨201, "Successfully logged " ++ toString answers.length ++ " answers.", none⟩,
           [.transaction queries], rows⟩
        | .error m =>
          ⟨⟨500, "Database error inserting answers", some m⟩, [.transaction queries], []⟩
  | _ => ⟨⟨400, "Missing or empty \"answers\" array.", none⟩, [], []⟩

/-- Spec-side characterization of an answer element accepted by the
per-element check: `question_number` present (neither `undefined` nor
`null`), `question_text` truthy, `answer_value` defined. -/
def goodElem (a : JSValue) : Prop :=
  getFieldD a "question_number" ≠ .vUndefined ∧ getFieldD a "question_number" ≠ .vNull ∧
    truthy (getFieldD a "question_text") = true ∧ getFieldD a "answer_value" ≠ .vUndefined

/-- The `answer_label` parameter of a built statement, when it is an
answers-table insert. -/
def answerLabelOf : Row → Option JSValue
  | .answerRow _ _ _ _ _ lbl _ => some lbl
  | _ => none

/-- A valid answer element with a label. -/
def ansGood1 : JSValue :=
  .vObj [("question_number", .vNum (.fin 1)), ("question_text", .vStr "Q1"),
         ("answer_value", .vNum (.fin 3)), ("answer_label", .vStr "Agree")]

/-- A valid boundary answer element: `question_number` zero and
`answer_value` an empty string (falsy but defined). -/
def ansGood2 : JSValue :=
  .vObj [("question_number", .vNum (.fin 0)), ("question_text", .vStr "Q2"),
         ("answer_value", .vStr "")]

/-- An invalid answer element (missing `question_number`). -/
def ansBad : JSValue := .vObj [("question_text", .vStr "Q3")]

/-- An element with a non-integer `question_number` and a numeric
`question_text`: it violates the declared Answer shape. -/
def ansOffShape : JSValue :=
  .vObj [("question_number", .vStr "seven"), ("question_text", .vNum (.fin 5)),
         ("answer_value", .vNum (.fin 3))]

/-- An element with a fractional `question_number` and numeric
`question_text`. -/
def ansFractional : JSValue :=
  .vObj [("question_number", .vNum (.fin (3 / 2))), ("question_text", .vNum (.fin 7)),
         ("answer_value", .vNum (.fin 3))]

/-- An element whose client-supplied `answer_label` is the empty string. -/
def ansEmptyLabel : JSValue :=
  .vObj [("question_number", .vNum (.fin 2)), ("question_text", .vStr "Q2"),
         ("answer_value", .vNum (.fin 4)), ("answer_label", .vStr "")]

/-- A well-formed answers payload (all elements valid). -/
def pAnswersGood : JSValue :=
  .vObj [("type", .vStr "answers"), ("userId", .vStr "u1"), ("sessionId", .vStr "s1"),
         ("timestamp", .vStr "t1"), ("answers", .vArr [ansGood1, ansGood2])]

/-- An answers payload whose second element is invalid. -/
def pAnswersBad : JSValue :=
  .vObj [("type", .vStr "answers"), ("userId", .vStr "u1"), ("sessionId", .vStr "s1"),
         ("timestamp", .vStr "t1"), ("answers", .vArr [ansGood1, ansBad])]

/-- A well-formed `test_started` event payload. -/
def eventPayload : JSValue :=
  .vObj [("type", .vStr "event"), ("eventName", .vStr "test_started"),
         ("userId", .vStr "u1"), ("sessionId", .vStr "s1"), ("timestamp", .vStr "t1")]

/-- An event payload whose `eventName` is outside the allowed set. -/
def badEventPayload : JSValue :=
  .vObj [("type", .vStr "event"), ("eventName", .vStr "test_aborted"),
         ("userId", .vStr "u1"), ("sessionId", .vStr "s1"), ("timestamp", .vStr "t1")]

/-- A payload whose three common fields are all strings but whose
`userId` is the empty string. -/
def pEmptyUserId : JSValue :=
  .vObj [("userId", .vStr ""), ("sessionId", .vStr "s1"), ("timestamp", .vStr "t1")]

/-- A payload whose three common fields are non-empty strings. -/
def pCommonGood : JSValue :=
  .vObj [("userId", .vStr "u1"), ("sessionId", .vStr "s1"), ("timestamp", .vStr "t1")]

/-- A traits object whose five entries are all well-formed except that
`mind.percent` is `NaN`. -/
def nanTraits : JSValue :=
  .vObj [("mind", .vObj [("percent", .vNum .nan), ("type", .vStr "Introverted")]),
         ("energy", .vObj [("percent", .vNum (.fin 55)), ("type", .vStr "Intuitive")]),
         ("nature", .vObj [("percent", .vNum (.fin 70)), ("type", .vStr "Thinking")]),
         ("tactics", .vObj [("percent", .vNum (.fin 40)), ("type", .vStr "Judging")]),
         ("identity", .vObj [("percent", .vNum (.fin 50)), ("type", .vStr "Assertive")])]

/-- A result payload whose `profileUrl` has the wrong origin. -/
def pWrongUrl : JSValue :=
  .vObj [("profileUrl", .vStr "https://evil.example/profiles/abcd")]

/-- A result payload whose `profileUrl` carries the expected origin path. -/
def pGoodUrl : JSValue :=
  .vObj [("profileUrl", .vStr (resultUrlStart ++ "intj-a"))]

/-- A sample validated common-fields record. -/
def cfSample : CommonFields := ⟨"u1", "s1", "t1"⟩

/-- On a base that is neither `null` nor `undefined`, the throwing read
agrees with the total read. -/
lemma getField_safe (v : JSValue) (f : String) (h1 : v ≠ .vNull) (h2 : v ≠ .vUndefined) :
    getField v f = .ok (getFieldD v f) := by
  cases v <;> simp_all [getField, getFieldD]

/-- A payload on which `validateCommonFields` succeeds supports property
reads. -/
lemma vcf_safe (p : JSValue) (cf : CommonFields) (h : validateCommonFields p = .ok cf) :
    p ≠ .vNull ∧ p ≠ .vUndefined := by
  constructor <;> rintro rfl <;> simp [validateCommonFields, getField] at h

/-- `isUndef` decides disequality with `undefined`. -/
lemma isUndef_false (v : JSValue) : isUndef v = false ↔ v ≠ .vUndefined := by
  cases v <;> simp [isUndef]

/-- `isNullV` decides disequality with `null`. -/
lemma isNullV_false (v : JSValue) : isNullV v = false ↔ v ≠ .vNull := by
  cases v <;> simp [isNullV]

/-- On elements that support property reads, the per-element check of
`validateAnswers` computes the total check `badB`. -/
lemma answerBad_safe (a : JSValue) (h1 : a ≠ .vNull) (h2 : a ≠ .vUndefined) :
    answerBad a = .ok (badB a) := by
  cases a <;> simp_all [answerBad, badB, getField, getFieldD]

/-- The total per-element check accepts exactly the `goodElem` elements. -/
lemma badB_false_iff (a : JSValue) : badB a = false ↔ goodElem a := by
  simp [badB, goodElem, isUndef_false, isNullV_false, and_assoc]

/-- The `forEach` pass succeeds exactly when every element is good. -/
lemma checkAnswersList_ok (l : List JSValue)
    (hsafe : ∀ a ∈ l, a ≠ .vNull ∧ a ≠ .vUndefined) :
    checkAnswersList l = .ok () ↔ ∀ a ∈ l, goodElem a := by
  induction l with
  | nil => simp [checkAnswersList]
  | cons a rest ih =>
    have hs := hsafe a (by simp)
    have ihr := ih (fun x hx => hsafe x (List.mem_cons_of_mem _ hx))
    cases hb : badB a with
    | false =>
      simp only [checkAnswersList, answerBad_safe a hs.1 hs.2, hb]
      rw [ihr]
      simp [List.forall_mem_cons, (badB_false_iff a).mp hb]
    | true =>
      simp only [checkAnswersList, answerBad_safe a hs.1 hs.2, hb]
      have : ¬ goodElem a := by
        intro hg
        rw [← badB_false_iff] at hg
        simp [hb] at hg
      simp [List.forall_mem_cons, this]

/-- When some element is bad, the `forEach` pass throws the
`ValidationError` of the first bad element. -/
lemma checkAnswersList_err (l : List JSValue)
    (hsafe : ∀ a ∈ l, a ≠ .vNull ∧ a ≠ .vUndefined)
    (hbad : ∃ a ∈ l, ¬ goodElem a) :
    ∃ a ∈ l, ¬ goodElem a ∧
      checkAnswersList l = .error (.validationError (invalidAnswerMsg a)) := by
  induction l with
  | nil => simp at hbad
  | cons a rest ih =>
    have hs := hsafe a (by simp)
    cases hb : badB a with
    | true =>
      refine ⟨a, by simp, ?_, ?_⟩
      · intro hg
        rw [← badB_false_iff] at hg
        simp [hb] at hg
      · simp only [checkAnswersList, answerBad_safe a hs.1 hs.2, hb]
    | false =>
      have hga : goodElem a := (badB_false_iff a).mp hb
      have hbad2 : ∃ x ∈ rest, ¬ goodElem x := by
        rcases hbad with ⟨x, hx, hngx⟩
        rcases List.mem_cons.mp hx with h | h
        · subst h; exact absurd hga hngx
        · exact ⟨x, h, hngx⟩
      rcases ih (fun x hx => hsafe x (List.mem_cons_of_mem _ hx)) hbad2 with ⟨x, hx, hngx, hres⟩
      refine ⟨x, List.mem_cons_of_mem _ hx, hngx, ?_⟩
      simp only [checkAnswersList, answerBad_safe a hs.1 hs.2, hb]
      exact hres


/-- A non-empty list is not `isEmpty`. -/
lemma isEmpty_false_of_ne_nil {α : Type} (l : List α) (h : l ≠ []) : l.isEmpty = false := by
  cases l with
  | nil => exact absurd rfl h
  | cons a t => rfl

/-- `validateAnswers` succeeds exactly on non-empty arrays of good
elements, returning the sequence unchanged. -/
lemma validateAnswers_ok (v : JSValue) (l : List JSValue)
    (hsafe : ∀ l2, v = .vArr l2 → ∀ a ∈ l2, a ≠ .vNull ∧ a ≠ .vUndefined) :
    validateAnswers v = .ok l ↔ (v = .vArr l ∧ l ≠ [] ∧ ∀ a ∈ l, goodElem a) := by
  cases v with
  | vArr es =>
    have hse := hsafe es rfl
    by_cases hne : es = []
    · subst hne
      simp only [validateAnswers, List.isEmpty_nil, if_true]
      constructor
      · intro h
        exact absurd h (by simp)
      · rintro ⟨h, hnl, _⟩
        have hel : ([] : List JSValue) = l := by
          injection h
        exact absurd hel.symm hnl
    · have hf : es.isEmpty = false := isEmpty_false_of_ne_nil es hne
      cases hc : checkAnswersList es with
      | ok u =>
        have hall := (checkAnswersList_ok es hse).mp (by rw [hc])
        simp only [validateAnswers, hf, Bool.false_eq_true, if_false, hc]
        constructor
        · intro h
          have hel : es = l := by
            injection h
          subst hel
          exact ⟨rfl, hne, hall⟩
        · rintro ⟨h, _, _⟩
          have hel : es = l := by
            injection h
          rw [hel]
      | error e =>
        simp only [validateAnswers, hf, Bool.false_eq_true, if_false, hc]
        constructor
        · intro h
          exact absurd h (by simp)
        · rintro ⟨h, hnl, hall⟩
          have hel : es = l := by
            injection h
          subst hel
          have := (checkAnswersList_ok es hse).mpr hall
          rw [hc] at this
          exact absurd this (by simp)
  | vUndefined => simp [validateAnswers]
  | vNull => simp [validateAnswers]
  | vBool b => simp [validateAnswers]
  | vNum n => simp [validateAnswers]
  | vStr s => simp [validateAnswers]
  | vObj fs => simp [validateAnswers]

/-- `validateAnswers` raises a `ValidationError` exactly on non-arrays,
empty arrays, and arrays with a bad element. -/
lemma validateAnswers_err (v : JSValue)
    (hsafe : ∀ l2, v = .vArr l2 → ∀ a ∈ l2, a ≠ .vNull ∧ a ≠ .vUndefined) :
    (∃ m, validateAnswers v = .error (.validationError m)) ↔
      ((∀ l, v ≠ .vArr l) ∨ ∃ l, v = .vArr l ∧ (l = [] ∨ ∃ a ∈ l, ¬ goodElem a)) := by
  cases v with
  | vArr es =>
    have hse := hsafe es rfl
    by_cases hne : es = []
    · subst hne
      simp [validateAnswers]
    · have hf : es.isEmpty = false := isEmpty_false_of_ne_nil es hne
      by_cases hall : ∀ a ∈ es, goodElem a
      · have hok := (checkAnswersList_ok es hse).mpr hall
        simp only [validateAnswers, hf, Bool.false_eq_true, if_false, hok]
        constructor
        · rintro ⟨m, hm⟩
          exact absurd hm (by simp)
        · rintro (h | ⟨l, hl, hcase⟩)
          · exact absurd rfl (h es)
          · have hel : es = l := by injection hl
            subst hel
            rcases hcase with h0 | ⟨a, ha, hng⟩
            · exact absurd h0 hne
            · exact absurd (hall a ha) hng
      · push_neg at hall
        rcases hall with ⟨a, ha, hng⟩
        rcases checkAnswersList_err es hse ⟨a, ha, hng⟩ with ⟨x, hx, hngx, hres⟩
        simp only [validateAnswers, hf, Bool.false_eq_true, if_false, hres]
        constructor
        · intro _
          exact Or.inr ⟨es, rfl, Or.inr ⟨x, hx, hngx⟩⟩
        · intro _
          exact ⟨invalidAnswerMsg x, rfl⟩
  | vUndefined => simp [validateAnswers]
  | vNull => simp [validateAnswers]
  | vBool b => simp [validateAnswers]
  | vNum n => simp [validateAnswers]
  | vStr s => simp [validateAnswers]
  | vObj fs => simp [validateAnswers]

/-- Every error `validateAnswers` raises on read-safe input is a
`ValidationError`. -/
lemma validateAnswers_err_kind (v : JSValue)
    (hsafe : ∀ l2, v = .vArr l2 → ∀ a ∈ l2, a ≠ .vNull ∧ a ≠ .vUndefined) :
    ∀ e, validateAnswers v = .error e → ∃ m, e = .validationError m := by
  intro e he
  cases v with
  | vArr es =>
    have hse := hsafe es rfl
    by_cases hne : es = []
    · subst hne
      simp only [validateAnswers, List.isEmpty_nil, if_true] at he
      exact ⟨_, (Except.error.inj he).symm⟩
    · have hf : es.isEmpty = false := isEmpty_false_of_ne_nil es hne
      by_cases hall : ∀ a ∈ es, goodElem a
      · have hok := (checkAnswersList_ok es hse).mpr hall
        simp [validateAnswers, hf, hok] at he
      · push_neg at hall
        rcases hall with ⟨a, ha, hng⟩
        rcases checkAnswersList_err es hse ⟨a, ha, hng⟩ with ⟨x, _, _, hres⟩
        simp only [validateAnswers, hf, Bool.false_eq_true, if_false, hres] at he
        exact ⟨_, (Except.error.inj he).symm⟩
  | vUndefined =>
    simp only [validateAnswers] at he
    exact ⟨_, (Except.error.inj he).symm⟩
  | vNull =>
    simp only [validateAnswers] at he
    exact ⟨_, (Except.error.inj he).symm⟩
  | vBool b =>
    simp only [validateAnswers] at he
    exact ⟨_, (Except.error.inj he).symm⟩
  | vNum n =>
    simp only [validateAnswers] at he
    exact ⟨_, (Except.error.inj he).symm⟩
  | vStr s =>
    simp only [validateAnswers] at he
    exact ⟨_, (Except.error.inj he).symm⟩
  | vObj fs =>
    simp only [validateAnswers] at he
    exact ⟨_, (Except.error.inj he).symm⟩

/-- The common-field guard `!x || typeof x !== 'string'` passes exactly
on non-empty strings. -/
lemma strGuard_false (v : JSValue) :
    (!truthy v || !isStringV v) = false ↔ ∃ s, v = .vStr s ∧ s ≠ "" := by
  cases v <;> simp [truthy, isStringV]

/-- `validateCommonFields` on a read-safe payload, unfolded to its three
guards over total reads. -/
lemma vcf_unfold (p : JSValue) (h1 : p ≠ .vNull) (h2 : p ≠ .vUndefined) :
    validateCommonFields p =
      (if !truthy (getFieldD p "userId") || !isStringV (getFieldD p "userId") then
        .error (.validationError "Missing or invalid userId (string required)")
      else if !truthy (getFieldD p "sessionId") || !isStringV (getFieldD p "sessionId") then
        .error (.validationError "Missing or invalid sessionId (string required)")
      else if !truthy (getFieldD p "timestamp") || !isStringV (getFieldD p "timestamp") then
        .error (.validationError "Missing or invalid timestamp (string required)")
      else
        .ok ⟨strVal (getFieldD p "userId"), strVal (getFieldD p "sessionId"),
             strVal (getFieldD p "timestamp")⟩) := by
  unfold validateCommonFields
  rw [getField_safe p "userId" h1 h2, getField_safe p "sessionId" h1 h2,
      getField_safe p "timestamp" h1 h2]

/-- C5 (corrected): `validateCommonFields` accepts a read-safe payload
exactly when `userId`, `sessionId` and `timestamp` are all NON-EMPTY
strings (the guard `!field` also rejects the empty string, which the
original claim counted as a success); on success it returns exactly the
three fields, and every failure is a `ValidationError`. -/
theorem c5_common_fields_characterization (p : JSValue)
    (h1 : p ≠ .vNull) (h2 : p ≠ .vUndefined) :
    ((∃ cf, validateCommonFields p = .ok cf) ↔
      ((∃ s, getFieldD p "userId" = .vStr s ∧ s ≠ "") ∧
       (∃ s, getFieldD p "sessionId" = .vStr s ∧ s ≠ "") ∧
       (∃ s, getFieldD p "timestamp" = .vStr s ∧ s ≠ ""))) ∧
    (∀ u s t, getFieldD p "userId" = .vStr u → u ≠ "" →
      getFieldD p "sessionId" = .vStr s → s ≠ "" →
      getFieldD p "timestamp" = .vStr t → t ≠ "" →
      validateCommonFields p = .ok ⟨u, s, t⟩) ∧
    (∀ e, validateCommonFields p = .error e → ∃ m, e = .validationError m) := by
  rw [vcf_unfold p h1 h2]
  refine ⟨?_, ?_, ?_⟩
  · constructor
    · rintro ⟨cf, hcf⟩
      split_ifs at hcf with g1 g2 g3
      all_goals first
        | exact Except.noConfusion hcf
        | exact ⟨(strGuard_false _).mp (Bool.eq_false_iff.mpr g1),
                 (strGuard_false _).mp (Bool.eq_false_iff.mpr g2),
                 (strGuard_false _).mp (Bool.eq_false_iff.mpr g3)⟩
    · rintro ⟨hu, hs, ht⟩
      have g1 := (strGuard_false _).mpr hu
      have g2 := (strGuard_false _).mpr hs
      have g3 := (strGuard_false _).mpr ht
      simp only [g1, g2, g3, Bool.false_eq_true, if_false]
      exact ⟨_, rfl⟩
  · intro u s t hu hnu hs hns ht hnt
    have g1 := (strGuard_false _).mpr ⟨u, hu, hnu⟩
    have g2 := (strGuard_false _).mpr ⟨s, hs, hns⟩
    have g3 := (strGuard_false _).mpr ⟨t, ht, hnt⟩
    simp only [g1, g2, g3, Bool.false_eq_true, if_false]
    rw [hu, hs, ht]
    rfl
  · intro e he
    split_ifs at he with g1 g2 g3
    all_goals exact ⟨_, (Except.error.inj he).symm⟩

/-- C5 witness: a payload whose three fields are non-empty strings is
accepted and the three fields are returned. -/
theorem c5_common_fields_characterization_witness :
    validateCommonFields pCommonGood = .ok ⟨"u1", "s1", "t1"⟩ :=
  (c5_common_fields_characterization pCommonGood (by simp [pCommonGood])
      (by simp [pCommonGood])).2.1
    "u1" "s1" "t1" rfl (by decide) rfl (by decide) rfl (by decide)

/-- C5 counterexample: all three common fields are strings (so the claim
as stated predicts success) yet the empty `userId` is rejected. -/
theorem c5_counterexample :
    (∃ s, getFieldD pEmptyUserId "userId" = .vStr s) ∧
    (∃ s, getFieldD pEmptyUserId "sessionId" = .vStr s) ∧
    (∃ s, getFieldD pEmptyUserId "timestamp" = .vStr s) ∧
    validateCommonFields pEmptyUserId =
      .error (.validationError "Missing or invalid userId (string required)") :=
  ⟨⟨"", rfl⟩, ⟨"s1", rfl⟩, ⟨"t1", rfl⟩, rfl⟩

/-- C6: on a read-safe argument, `validateAnswers` succeeds exactly on
non-empty arrays all of whose elements have a present `question_number`
(neither `undefined` nor `null`; zero is valid), a truthy `question_text`
and a defined `answer_value` (falsy-but-defined values accepted),
returning the sequence unchanged; it raises a `ValidationError` exactly
otherwise, and every error it raises is a `ValidationError`. -/
theorem c6_validate_answers_characterization (v : JSValue)
    (hsafe : ∀ l, v = .vArr l → ∀ a ∈ l, a ≠ .vNull ∧ a ≠ .vUndefined) :
    (∀ l, validateAnswers v = .ok l ↔ (v = .vArr l ∧ l ≠ [] ∧ ∀ a ∈ l, goodElem a)) ∧
    ((∃ m, validateAnswers v = .error (.validationError m)) ↔
      ((∀ l, v ≠ .vArr l) ∨ ∃ l, v = .vArr l ∧ (l = [] ∨ ∃ a ∈ l, ¬ goodElem a))) ∧
    (∀ e, validateAnswers v = .error e → ∃ m, e = .validationError m) :=
  ⟨fun l => validateAnswers_ok v l (fun l2 h => hsafe l2 h),
   validateAnswers_err v hsafe, validateAnswers_err_kind v hsafe⟩

/-- C6 witness: a two-element array with boundary values
(`question_number` zero, `answer_value` an empty string) is accepted
unchanged. -/
theorem c6_validate_answers_characterization_witness :
    validateAnswers (.vArr [ansGood1, ansGood2]) = .ok [ansGood1, ansGood2] := by
  have hsafe : ∀ l, (JSValue.vArr [ansGood1, ansGood2]) = .vArr l →
      ∀ a ∈ l, a ≠ .vNull ∧ a ≠ .vUndefined := by
    intro l hl
    have hel : [ansGood1, ansGood2] = l := by injection hl
    subst hel
    intro a ha
    rcases List.mem_cons.mp ha with h | h
    · subst h
      exact ⟨by simp [ansGood1], by simp [ansGood1]⟩
    · rcases List.mem_cons.mp h with h2 | h2
      · subst h2
        exact ⟨by simp [ansGood2], by simp [ansGood2]⟩
      · simp at h2
  refine ((c6_validate_answers_characterization _ hsafe).1 _).mpr ⟨rfl, by simp, ?_⟩
  intro a ha
  rcases List.mem_cons.mp ha with h | h
  · subst h
    exact (badB_false_iff ansGood1).mp (by decide)
  · rcases List.mem_cons.mp h with h2 | h2
    · subst h2
      exact (badB_false_iff ansGood2).mp (by decide)
    · simp at h2

/-- C8 counterexample: an element whose `question_number` is the string
"seven" (not an integer, not even a number) and whose `question_text` is
the number 5 (not a string) is accepted by the answers validation, though
the claim says such elements are rejected. -/
theorem c8_counterexample :
    validateAnswers (.vArr [ansOffShape]) = .ok [ansOffShape] ∧
    getFieldD ansOffShape "question_number" = .vStr "seven" ∧
    (∀ n : JSNum, getFieldD ansOffShape "question_number" ≠ .vNum n) ∧
    (∀ s : String, getFieldD ansOffShape "question_text" ≠ .vStr s) := by
  refine ⟨rfl, rfl, ?_, ?_⟩
  · intro n h
    rw [show getFieldD ansOffShape "question_number" = .vStr "seven" from rfl] at h
    exact JSValue.noConfusion h
  · intro s h
    rw [show getFieldD ansOffShape "question_text" = .vNum (.fin 5) from rfl] at h
    exact JSValue.noConfusion h

/-- C8 (corrected): the per-element validation enforces only presence
(`question_number` neither `undefined` nor `null`, `question_text`
truthy, `answer_value` defined); it does not enforce the declared Answer
shape, so non-integer `question_number`s and non-string `question_text`s
are accepted. -/
theorem c8_element_shape_not_enforced (a : JSValue)
    (h1 : a ≠ .vNull) (h2 : a ≠ .vUndefined) :
    validateAnswers (.vArr [a]) = .ok [a] ↔ goodElem a := by
  have hsafe : ∀ l2, (JSValue.vArr [a]) = .vArr l2 →
      ∀ x ∈ l2, x ≠ .vNull ∧ x ≠ .vUndefined := by
    intro l2 hl x hx
    have hel : [a] = l2 := by injection hl
    subst hel
    rcases List.mem_cons.mp hx with h | h
    · subst h
      exact ⟨h1, h2⟩
    · simp at h
  rw [validateAnswers_ok _ _ hsafe]
  constructor
  · rintro ⟨_, _, hall⟩
    exact hall a (by simp)
  · intro hg
    refine ⟨rfl, by simp, ?_⟩
    intro x hx
    rcases List.mem_cons.mp hx with h | h
    · subst h
      exact hg
    · simp at h

/-- C8 witness: a fractional `question_number` (3/2) with a numeric
`question_text` passes the amended characterization. -/
theorem c8_element_shape_not_enforced_witness :
    validateAnswers (.vArr [ansFractional]) = .ok [ansFractional] :=
  (c8_element_shape_not_enforced ansFractional (by simp [ansFractional])
      (by simp [ansFractional])).mpr
    ((badB_false_iff ansFractional).mp (by decide))

/-- The range test of the trait loop accepts exactly `NaN` (both IEEE
comparisons are false on it) and the finite numbers of `[0, 100]`. -/
lemma percentBad_false (v : JSValue) :
    percentBad v = false ↔
      (v = .vNum .nan ∨ ∃ q : ℚ, v = .vNum (.fin q) ∧ 0 ≤ q ∧ q ≤ 100) := by
  cases v with
  | vNum n =>
    cases n with
    | nan => simp [percentBad, JSNum.lt, JSNum.gt]
    | posInf => simp [percentBad, JSNum.lt, JSNum.gt]
    | negInf => simp [percentBad, JSNum.lt, JSNum.gt]
    | fin q => simp [percentBad, JSNum.lt, JSNum.gt, not_lt]
  | vUndefined => simp [percentBad]
  | vNull => simp [percentBad]
  | vBool b => simp [percentBad]
  | vStr s => simp [percentBad]
  | vObj fs => simp [percentBad]
  | vArr es => simp [percentBad]

/-- The type test of the trait loop accepts exactly the strings that are
non-empty after trimming. -/
lemma typeBad_false (v : JSValue) :
    typeBad v = false ↔ ∃ s, v = .vStr s ∧ ¬ (jsTrim s = "") := by
  cases v <;> simp [typeBad]

/-- One trait entry passes the loop check exactly when it is truthy with
a passing percent and type. -/
lemma traitBad_false (t : JSValue) :
    traitBad t = false ↔
      (truthy t = true ∧ percentBad (getFieldD t "percent") = false ∧
        typeBad (getFieldD t "type") = false) := by
  simp [traitBad, and_assoc]

/-- C2 (corrected): `isValidTraitObject` returns true iff the argument is
a truthy object and each of the five required entries is truthy with a
`type` that is a string non-empty after trimming and a `percent` that is
a number which is either `NaN` or a finite value in `[0, 100]` — the IEEE
comparisons `percent < 0` and `percent > 100` are both false on `NaN`, so
a `NaN` percent is ACCEPTED, contrary to the original claim; every other
number outside `[0, 100]` (including the infinities) is rejected. -/
theorem c2_traits_characterization (traits : JSValue) :
    isValidTraitObject traits = true ↔
      (truthy traits = true ∧ isObjType traits = true ∧
        ∀ k ∈ requiredTraits,
          truthy (getFieldD traits k) = true ∧
          (getFieldD (getFieldD traits k) "percent" = .vNum .nan ∨
            ∃ q : ℚ, getFieldD (getFieldD traits k) "percent" = .vNum (.fin q) ∧
              0 ≤ q ∧ q ≤ 100) ∧
          (∃ s, getFieldD (getFieldD traits k) "type" = .vStr s ∧ ¬ (jsTrim s = ""))) := by
  unfold isValidTraitObject
  by_cases h1 : truthy traits = true
  · by_cases h2 : isObjType traits = true
    · have hg : (!truthy traits || !isObjType traits) = false := by
        rw [h1, h2]
        rfl
      simp only [hg, Bool.false_eq_true, if_false]
      rw [List.all_eq_true]
      simp only [h1, h2, true_and]
      refine forall_congr' fun k => imp_congr_right fun hk => ?_
      rw [Bool.not_eq_true', traitBad_false, percentBad_false, typeBad_false]
    · have h2f : isObjType traits = false := by
        revert h2
        cases isObjType traits <;> simp
      have hg : (!truthy traits || !isObjType traits) = true := by
        rw [h1, h2f]
        rfl
      simp only [hg, if_true]
      constructor
      · intro h
        exact absurd h (by simp)
      · rintro ⟨_, hobj, _⟩
        exact absurd hobj h2
  · have h1f : truthy traits = false := by
      revert h1
      cases truthy traits <;> simp
    have hg : (!truthy traits || !isObjType traits) = true := by
      rw [h1f]
      rfl
    simp only [hg, if_true]
    constructor
    · intro h
      exact absurd h (by simp)
    · rintro ⟨htru, _, _⟩
      exact absurd htru h1

/-- C2 counterexample: a traits object that is well-formed except that
`mind.percent` is `NaN` — not a number in `[0, 100]` — is nonetheless
accepted by `isValidTraitObject`. -/
theorem c2_nan_counterexample :
    isValidTraitObject nanTraits = true ∧
    getFieldD (getFieldD nanTraits "mind") "percent" = .vNum .nan ∧
    (∀ q : ℚ, getFieldD (getFieldD nanTraits "mind") "percent" ≠ .vNum (.fin q)) := by
  refine ⟨by decide, rfl, ?_⟩
  intro q h
  rw [show getFieldD (getFieldD nanTraits "mind") "percent" = .vNum .nan from rfl] at h
  exact JSNum.noConfusion (JSValue.vNum.inj h)

/-- Character-level characterization of the startsWith test. -/
lemma startsWithChars_iff (p s : List Char) :
    startsWithChars p s = true ↔ ∃ t, s = p ++ t := by
  induction p generalizing s with
  | nil => simp [startsWithChars]
  | cons c ps ih =>
    cases s with
    | nil => simp [startsWithChars]
    | cons d ds =>
      rw [show startsWithChars (c :: ps) (d :: ds) = (c == d && startsWithChars ps ds) from rfl]
      simp only [Bool.and_eq_true, beq_iff_eq, ih]
      constructor
      · rintro ⟨rfl, t, rfl⟩
        exact ⟨t, rfl⟩
      · rintro ⟨t, h⟩
        injection h with h1 h2
        exact ⟨h1.symm, t, h2⟩

/-- `s.startsWith(pat)` holds exactly when `s` is `pat` followed by some
suffix. -/
lemma startsWithB_iff (s pat : String) :
    startsWithB s pat = true ↔ ∃ t : String, s = pat ++ t := by
  rw [startsWithB, startsWithChars_iff]
  constructor
  · rintro ⟨t, ht⟩
    refine ⟨String.mk t, ?_⟩
    cases s with
    | mk sdata =>
      cases pat with
      | mk pdata =>
        have hd : sdata = pdata ++ t := ht
        rw [show (String.mk pdata ++ String.mk t) = String.mk (pdata ++ t) from rfl, hd]
  · rintro ⟨t, rfl⟩
    refine ⟨t.toList, ?_⟩
    cases pat with
    | mk pd =>
      cases t with
      | mk td => rfl

/-- `validateTestResult` on a read-safe payload, unfolded to its guards
over total reads. -/
lemma vtr_unfold (p : JSValue) (h1 : p ≠ .vNull) (h2 : p ≠ .vUndefined) :
    validateTestResult p =
      (if !truthy (getFieldD p "profileUrl") || !isStringV (getFieldD p "profileUrl") ||
          !startsWithB (strVal (getFieldD p "profileUrl")) resultUrlStart then
        .error (.validationError "Missing or invalid profileUrl format")
      else if !truthy (getFieldD p "mbtiResult") || !isStringV (getFieldD p "mbtiResult") then
        .error (.validationError "Missing or invalid mbtiResult (full string)")
      else if truthy (getFieldD p "mbtiCode") && !isStringV (getFieldD p "mbtiCode") then
        .error (.validationError "Invalid mbtiCode format (should be string or null)")
      else if !isValidTraitObject (getFieldD p "traits") then
        .error (.validationError "Invalid or incomplete traits object")
      else
        .ok ⟨getFieldD p "profileUrl", getFieldD p "mbtiResult", getFieldD p "mbtiCode",
             getFieldD p "traits"⟩) := by
  unfold validateTestResult
  rw [getField_safe p "profileUrl" h1 h2, getField_safe p "mbtiResult" h1 h2,
      getField_safe p "mbtiCode" h1 h2, getField_safe p "traits" h1 h2]

/-- C9: on a read-safe payload, `validateTestResult` fails with the
profileUrl `ValidationError` whenever `profileUrl` is not a string of the
form prefix-plus-suffix (regardless of the suffix), and never fails with
that error when `profileUrl` does have the prefix. -/
theorem c9_profile_url_check (p : JSValue) (h1 : p ≠ .vNull) (h2 : p ≠ .vUndefined) :
    ((∀ t : String, getFieldD p "profileUrl" ≠ .vStr (resultUrlStart ++ t)) →
      validateTestResult p =
        .error (.validationError "Missing or invalid profileUrl format")) ∧
    ((∃ t : String, getFieldD p "profileUrl" = .vStr (resultUrlStart ++ t)) →
      validateTestResult p ≠
        .error (.validationError "Missing or invalid profileUrl format")) := by
  rw [vtr_unfold p h1 h2]
  constructor
  · intro hno
    have hguard : (!truthy (getFieldD p "profileUrl") || !isStringV (getFieldD p "profileUrl") ||
        !startsWithB (strVal (getFieldD p "profileUrl")) resultUrlStart) = true := by
      cases hv : getFieldD p "profileUrl" with
      | vStr s =>
        by_cases hw : startsWithB s resultUrlStart = true
        · rcases (startsWithB_iff s resultUrlStart).mp hw with ⟨t, rfl⟩
          exact absurd hv (hno t)
        · have hwf : startsWithB s resultUrlStart = false := by
            revert hw
            cases startsWithB s resultUrlStart <;> simp
          simp [strVal, hwf]
      | vUndefined => simp [truthy]
      | vNull => simp [truthy]
      | vBool b => simp [isStringV]
      | vNum n => simp [isStringV]
      | vObj fs => simp [isStringV]
      | vArr es => simp [isStringV]
    simp [hguard]
  · rintro ⟨t, hv⟩
    have hne : resultUrlStart ++ t ≠ "" := by
      intro hcontra
      have hd : (resultUrlStart ++ t).data = resultUrlStart.data ++ t.data := by
        cases t with
        | mk td => rfl
      rw [hcontra] at hd
      have := (List.append_eq_nil.mp hd.symm).1
      exact absurd this (by decide)
    have hsw : startsWithB (resultUrlStart ++ t) resultUrlStart = true :=
      (startsWithB_iff _ _).mpr ⟨t, rfl⟩
    have hguard : (!truthy (getFieldD p "profileUrl") || !isStringV (getFieldD p "profileUrl") ||
        !startsWithB (strVal (getFieldD p "profileUrl")) resultUrlStart) = false := by
      rw [hv]
      simp [truthy, isStringV, strVal, hsw, hne]
    simp only [hguard, Bool.false_eq_true, if_false]
    intro h
    split_ifs at h <;>
      first
        | exact Except.noConfusion h
        | exact absurd (JSError.validationError.inj (Except.error.inj h)) (by decide)

/-- C9 witness: a foreign-origin URL fails with the profileUrl error; a
URL with the expected prefix never produces that error. -/
theorem c9_profile_url_check_witness :
    validateTestResult pWrongUrl =
      .error (.validationError "Missing or invalid profileUrl format") ∧
    validateTestResult pGoodUrl ≠
      .error (.validationError "Missing or invalid profileUrl format") := by
  constructor
  · apply (c9_profile_url_check pWrongUrl (by simp [pWrongUrl]) (by simp [pWrongUrl])).1
    intro t h
    rw [show getFieldD pWrongUrl "profileUrl" = .vStr "https://evil.example/profiles/abcd"
        from rfl] at h
    have hs := JSValue.vStr.inj h
    have hw : startsWithB "https://evil.example/profiles/abcd" resultUrlStart = true :=
      (startsWithB_iff _ _).mpr ⟨t, hs⟩
    exact absurd hw (by decide)
  · exact (c9_profile_url_check pGoodUrl (by simp [pGoodUrl]) (by simp [pGoodUrl])).2
      ⟨"intj-a", rfl⟩

/-- A POST request passes both method gates of the consolidated handler. -/
lemma main_post (b : JSValue) (db : Except String Unit) :
    mainHandler "POST" b db = handlePost b db := rfl

/-- A POST request passes both method gates of the first log-answers
variant. -/
lemma v1_post (b : JSValue) (db : Except String Unit) :
    logAnswersV1 "POST" b db = v1Post b db := rfl

/-- A truthy payload is neither `null` nor `undefined`. -/
lemma truthy_safe (p : JSValue) (htr : truthy p = true) :
    p ≠ .vNull ∧ p ≠ .vUndefined := by
  constructor <;> rintro rfl <;> simp [truthy] at htr

/-- The routing of the consolidated handler sends `type: "answers"` to
`handleAnswers`. -/
lemma route_answers (p : JSValue) (db : Except String Unit)
    (htr : truthy p = true) (hob : isObjType p = true)
    (hty : getFieldD p "type" = .vStr "answers") :
    routeRequest p db = handleAnswers p db := by
  unfold routeRequest
  have hg : (!truthy p || !isObjType p) = false := by
    rw [htr, hob]
    rfl
  simp only [hg, Bool.false_eq_true, if_false, hty]
  rfl

/-- The routing of the consolidated handler sends `type: "event"` with a
recognized `eventName` to `handleEvent`. -/
lemma route_event_match (p : JSValue) (db : Except String Unit)
    (htr : truthy p = true) (hob : isObjType p = true)
    (hty : getFieldD p "type" = .vStr "event")
    (hev : getFieldD p "eventName" = .vStr "test_started" ∨
      getFieldD p "eventName" = .vStr "test_finished") :
    routeRequest p db = handleEvent p db := by
  unfold routeRequest
  have hg : (!truthy p || !isObjType p) = false := by
    rw [htr, hob]
    rfl
  rcases hev with hev | hev <;>
    simp only [hg, Bool.false_eq_true, if_false, hty, hev] <;> rfl

/-- The routing of the consolidated handler rejects `type: "event"` with
an unrecognized `eventName` as an invalid payload type, attempting no
persistence. -/
lemma route_event_nomatch (p : JSValue) (db : Except String Unit)
    (htr : truthy p = true) (hob : isObjType p = true)
    (hty : getFieldD p "type" = .vStr "event")
    (hev : ∀ s, getFieldD p "eventName" = .vStr s →
      s ≠ "test_started" ∧ s ≠ "test_finished") :
    routeRequest p db =
      .ok ⟨⟨400, "Invalid payload type specified: 'event'", none⟩, [], []⟩ := by
  unfold routeRequest
  have hg : (!truthy p || !isObjType p) = false := by
    rw [htr, hob]
    rfl
  have hcond : (isStrEq (getFieldD p "type") "event" &&
      (isStrEq (getFieldD p "eventName") "test_started" ||
       isStrEq (getFieldD p "eventName") "test_finished")) = false := by
    cases hv : getFieldD p "eventName" with
    | vStr s =>
      obtain ⟨hs1, hs2⟩ := hev s hv
      simp [isStrEq, hty, hs1, hs2]
    | vUndefined => simp [isStrEq, hty]
    | vNull => simp [isStrEq, hty]
    | vBool b => simp [isStrEq, hty]
    | vNum n => simp [isStrEq, hty]
    | vObj fs => simp [isStrEq, hty]
    | vArr es => simp [isStrEq, hty]
  simp only [hty] at hcond ⊢
  simp only [hg, Bool.false_eq_true, if_false, hcond]
  rfl

/-- The outer catch of the consolidated handler maps a thrown
`ValidationError` to a 400 response with no persistence. -/
lemma handlePost_validation (p : JSValue) (db : Except String Unit) (m : String)
    (h : routeRequest p db = .error (.validationError m)) :
    handlePost p db = ⟨⟨400, "Data validation failed", some m⟩, [], []⟩ := by
  unfold handlePost
  rw [h]

/-- The outer catch passes through a returned result. -/
lemma handlePost_ok (p : JSValue) (db : Except String Unit) (r : HandlerResult)
    (h : routeRequest p db = .ok r) :
    handlePost p db = r := by
  unfold handlePost
  rw [h]

/-- When some element is invalid, `handleAnswers` throws the
`ValidationError` of the first bad element before any database call. -/
lemma handleAnswers_err (p : JSValue) (db : Except String Unit) (cf : CommonFields)
    (answers : List JSValue)
    (hcf : validateCommonFields p = .ok cf)
    (hans : getFieldD p "answers" = .vArr answers)
    (hsafe : ∀ a ∈ answers, a ≠ .vNull ∧ a ≠ .vUndefined)
    (hbad : ∃ a ∈ answers, ¬ goodElem a) :
    ∃ a ∈ answers, ¬ goodElem a ∧
      handleAnswers p db = .error (.validationError (invalidAnswerMsg a)) := by
  obtain ⟨hp1, hp2⟩ := vcf_safe p cf hcf
  have hne : answers ≠ [] := by
    rintro rfl
    simp at hbad
  have hf : answers.isEmpty = false := isEmpty_false_of_ne_nil _ hne
  rcases checkAnswersList_err answers hsafe hbad with ⟨a, ha, hng, hres⟩
  refine ⟨a, ha, hng, ?_⟩
  unfold handleAnswers
  simp only [hcf, getField_safe p "answers" hp1 hp2, hans]
  unfold validateAnswers
  simp only [hf, Bool.false_eq_true, if_false, hres]

/-- When every element is valid, `handleAnswers` issues exactly one
transaction containing one statement per answer, and the store outcome
decides between the 201 success (all rows committed) and the 500 failure
(no row committed). -/
lemma handleAnswers_allgood (p : JSValue) (db : Except String Unit) (cf : CommonFields)
    (answers : List JSValue)
    (hcf : validateCommonFields p = .ok cf)
    (hans : getFieldD p "answers" = .vArr answers)
    (hsafe : ∀ a ∈ answers, a ≠ .vNull ∧ a ≠ .vUndefined)
    (hne : answers ≠ []) (hgood : ∀ a ∈ answers, goodElem a) :
    (db = .ok () → handleAnswers p db =
      .ok ⟨⟨201, "Successfully logged " ++ toString answers.length ++ " answers.", none⟩,
           [.transaction (answers.map (buildAnswerQuery cf))],
           answers.map (buildAnswerQuery cf)⟩) ∧
    (∀ m, db = .error m → handleAnswers p db =
      .ok ⟨⟨500, "Database error inserting answers", some m⟩,
           [.transaction (answers.map (buildAnswerQuery cf))], []⟩) := by
  obtain ⟨hp1, hp2⟩ := vcf_safe p cf hcf
  have hva : validateAnswers (.vArr answers) = .ok answers := by
    refine (validateAnswers_ok _ _ ?_).mpr ⟨rfl, hne, hgood⟩
    intro l2 hl
    have hel : answers = l2 := by injection hl
    subst hel
    exact hsafe
  constructor
  · rintro rfl
    unfold handleAnswers
    simp only [hcf, getField_safe p "answers" hp1 hp2, hans, hva]
    rfl
  · rintro m rfl
    unfold handleAnswers
    simp only [hcf, getField_safe p "answers" hp1 hp2, hans, hva]
    rfl

/-- When every element is good, the variant-two preparation stage builds
exactly one statement per answer. -/
lemma v2MapQueries_allgood (cf : CommonFields) (l : List JSValue)
    (hsafe : ∀ a ∈ l, a ≠ .vNull ∧ a ≠ .vUndefined)
    (hgood : ∀ a ∈ l, goodElem a) :
    v2MapQueries cf l = .ok (l.map (buildAnswerQuery cf)) := by
  induction l with
  | nil => rfl
  | cons a rest ih =>
    have hs := hsafe a (by simp)
    have hb : badB a = false := (badB_false_iff a).mpr (hgood a (by simp))
    have ihr := ih (fun x hx => hsafe x (List.mem_cons_of_mem _ hx))
      (fun x hx => hgood x (List.mem_cons_of_mem _ hx))
    simp only [v2MapQueries, answerBad_safe a hs.1 hs.2, hb, ihr, List.map_cons]

/-- When some element is bad, the variant-two preparation stage throws
the flagged error of the first bad element. -/
lemma v2MapQueries_err (cf : CommonFields) (l : List JSValue)
    (hsafe : ∀ a ∈ l, a ≠ .vNull ∧ a ≠ .vUndefined)
    (hbad : ∃ a ∈ l, ¬ goodElem a) :
    ∃ a ∈ l, ¬ goodElem a ∧
      v2MapQueries cf l = .error (.flaggedError (invalidAnswerMsg a)) := by
  induction l with
  | nil => simp at hbad
  | cons a rest ih =>
    have hs := hsafe a (by simp)
    cases hb : badB a with
    | true =>
      refine ⟨a, by simp, ?_, ?_⟩
      · intro hg
        rw [← badB_false_iff] at hg
        simp [hb] at hg
      · simp only [v2MapQueries, answerBad_safe a hs.1 hs.2, hb]
    | false =>
      have hga : goodElem a := (badB_false_iff a).mp hb
      have hbad2 : ∃ x ∈ rest, ¬ goodElem x := by
        rcases hbad with ⟨x, hx, hngx⟩
        rcases List.mem_cons.mp hx with h | h
        · subst h
          exact absurd hga hngx
        · exact ⟨x, h, hngx⟩
      rcases ih (fun x hx => hsafe x (List.mem_cons_of_mem _ hx)) hbad2 with ⟨x, hx, hngx, hres⟩
      refine ⟨x, List.mem_cons_of_mem _ hx, hngx, ?_⟩
      simp only [v2MapQueries, answerBad_safe a hs.1 hs.2, hb, hres]

/-- Every statement built by the variant-two preparation stage is a
`buildAnswerQuery` statement. -/
lemma v2MapQueries_rows (cf : CommonFields) (l : List JSValue) (qs : List Row)
    (h : v2MapQueries cf l = .ok qs) :
    ∀ r ∈ qs, ∃ a, r = buildAnswerQuery cf a := by
  induction l generalizing qs with
  | nil =>
    simp only [v2MapQueries] at h
    have : ([] : List Row) = qs := by injection h
    subst this
    simp
  | cons a rest ih =>
    simp only [v2MapQueries] at h
    cases hb : answerBad a with
    | error e =>
      rw [hb] at h
      exact absurd h (fun hc => Except.noConfusion hc)
    | ok b =>
      rw [hb] at h
      cases b with
      | true => exact absurd h (fun hc => Except.noConfusion hc)
      | false =>
        cases hrec : v2MapQueries cf rest with
        | error e =>
          rw [hrec] at h
          exact absurd h (fun hc => Except.noConfusion hc)
        | ok qs2 =>
          rw [hrec] at h
          have : buildAnswerQuery cf a :: qs2 = qs := by injection h
          subst this
          intro r hr
          rcases List.mem_cons.mp hr with h2 | h2
          · exact ⟨a, h2⟩
          · exact ih qs2 hrec r h2

/-- C1: for an answers request (object payload with `type: "answers"`,
valid common fields, and a read-safe answers array): if any element fails
the per-element validation, the consolidated handler returns a 400
response carrying the first offending element's serialization and makes
NO database call (validation is a pre-pass); if every element validates,
it makes exactly ONE transaction call containing one insert per answer,
committing every row on store success (201) and no row on store failure
(500). The same holds for the answers branch of the second log-answers
variant, whose interleaved validation also completes before execution. -/
theorem c1_answers_prepass_atomicity (p : JSValue) (db : Except String Unit)
    (cf : CommonFields) (answers : List JSValue)
    (htr : truthy p = true) (hob : isObjType p = true)
    (hty : getFieldD p "type" = .vStr "answers")
    (hcf : validateCommonFields p = .ok cf)
    (hans : getFieldD p "answers" = .vArr answers)
    (hsafe : ∀ a ∈ answers, a ≠ .vNull ∧ a ≠ .vUndefined) :
    ((∃ a ∈ answers, ¬ goodElem a) →
      ∃ a ∈ answers, ¬ goodElem a ∧
        mainHandler "POST" p db =
          ⟨⟨400, "Data validation failed", some (invalidAnswerMsg a)⟩, [], []⟩) ∧
    (answers ≠ [] → (∀ a ∈ answers, goodElem a) →
      (mainHandler "POST" p db).calls = [.transaction (answers.map (buildAnswerQuery cf))] ∧
      (db = .ok () → mainHandler "POST" p db =
        ⟨⟨201, "Successfully logged " ++ toString answers.length ++ " answers.", none⟩,
         [.transaction (answers.map (buildAnswerQuery cf))],
         answers.map (buildAnswerQuery cf)⟩) ∧
      (∀ m, db = .error m → mainHandler "POST" p db =
        ⟨⟨500, "Database error inserting answers", some m⟩,
         [.transaction (answers.map (buildAnswerQuery cf))], []⟩)) ∧
    ((∃ a ∈ answers, ¬ goodElem a) →
      ∃ a ∈ answers, ¬ goodElem a ∧
        v2AnswersBranch cf (.vArr answers) db =
          ⟨⟨400, "Data validation failed for answers", some (invalidAnswerMsg a)⟩, [], []⟩) ∧
    (answers ≠ [] → (∀ a ∈ answers, goodElem a) →
      (db = .ok () → v2AnswersBranch cf (.vArr answers) db =
        ⟨⟨201, "Successfully logged " ++ toString answers.length ++ " answers.", none⟩,
         [.transaction (answers.map (buildAnswerQuery cf))],
         answers.map (buildAnswerQuery cf)⟩) ∧
      (∀ m, db = .error m → v2AnswersBranch cf (.vArr answers) db =
        ⟨⟨500, "Database error inserting answers", some m⟩,
         [.transaction (answers.map (buildAnswerQuery cf))], []⟩)) := by
  refine ⟨?_, ?_, ?_, ?_⟩
  · intro hbad
    rcases handleAnswers_err p db cf answers hcf hans hsafe hbad with ⟨a, ha, hng, hres⟩
    refine ⟨a, ha, hng, ?_⟩
    rw [main_post]
    exact handlePost_validation p db _ (by rw [route_answers p db htr hob hty, hres])
  · intro hne hgood
    obtain ⟨hok, herr⟩ := handleAnswers_allgood p db cf answers hcf hans hsafe hne hgood
    refine ⟨?_, ?_, ?_⟩
    · cases db with
      | ok u =>
        cases u
        rw [main_post, handlePost_ok p _ _ (by rw [route_answers _ _ htr hob hty, hok rfl])]
      | error m =>
        rw [main_post, handlePost_ok p _ _ (by rw [route_answers _ _ htr hob hty, herr m rfl])]
    · rintro rfl
      rw [main_post, handlePost_ok p _ _ (by rw [route_answers _ _ htr hob hty, hok rfl])]
    · rintro m rfl
      rw [main_post, handlePost_ok p _ _ (by rw [route_answers _ _ htr hob hty, herr m rfl])]
  · intro hbad
    rcases v2MapQueries_err cf answers hsafe hbad with ⟨a, ha, hng, hres⟩
    refine ⟨a, ha, hng, ?_⟩
    have hne : answers ≠ [] := by
      rintro rfl
      simp at hbad
    have hf : answers.isEmpty = false := isEmpty_false_of_ne_nil _ hne
    simp only [v2AnswersBranch, hf, Bool.false_eq_true, if_false, hres]
  · intro hne hgood
    have hf : answers.isEmpty = false := isEmpty_false_of_ne_nil _ hne
    have hm := v2MapQueries_allgood cf answers hsafe hgood
    constructor
    · rintro rfl
      simp only [v2AnswersBranch, hf, Bool.false_eq_true, if_false, hm]
      rfl
    · rintro m rfl
      simp only [v2AnswersBranch, hf, Bool.false_eq_true, if_false, hm]
      rfl

/-- C1 witness: a payload with an invalid second element yields 400 and
no database call; with two valid elements, one transaction of two rows is
committed on store success and nothing on store failure. -/
theorem c1_answers_prepass_atomicity_witness :
    (∃ a ∈ [ansGood1, ansBad], ¬ goodElem a ∧
      mainHandler "POST" pAnswersBad (.ok ()) =
        ⟨⟨400, "Data validation failed", some (invalidAnswerMsg a)⟩, [], []⟩) ∧
    mainHandler "POST" pAnswersGood (.ok ()) =
      ⟨⟨201, "Successfully logged " ++ toString ([ansGood1, ansGood2].length) ++ " answers.",
        none⟩,
       [.transaction ([ansGood1, ansGood2].map (buildAnswerQuery cfSample))],
       [ansGood1, ansGood2].map (buildAnswerQuery cfSample)⟩ ∧
    mainHandler "POST" pAnswersGood (.error "boom") =
      ⟨⟨500, "Database error inserting answers", some "boom"⟩,
       [.transaction ([ansGood1, ansGood2].map (buildAnswerQuery cfSample))], []⟩ := by
  have hsafeBad : ∀ a ∈ [ansGood1, ansBad], a ≠ .vNull ∧ a ≠ .vUndefined := by
    intro a ha
    rcases List.mem_cons.mp ha with h | h
    · subst h
      exact ⟨by simp [ansGood1], by simp [ansGood1]⟩
    · rcases List.mem_cons.mp h with h2 | h2
      · subst h2
        exact ⟨by simp [ansBad], by simp [ansBad]⟩
      · simp at h2
  have hsafeGood : ∀ a ∈ [ansGood1, ansGood2], a ≠ .vNull ∧ a ≠ .vUndefined := by
    intro a ha
    rcases List.mem_cons.mp ha with h | h
    · subst h
      exact ⟨by simp [ansGood1], by simp [ansGood1]⟩
    · rcases List.mem_cons.mp h with h2 | h2
      · subst h2
        exact ⟨by simp [ansGood2], by simp [ansGood2]⟩
      · simp at h2
  have hgood : ∀ a ∈ [ansGood1, ansGood2], goodElem a := by
    intro a ha
    rcases List.mem_cons.mp ha with h | h
    · subst h
      exact (badB_false_iff ansGood1).mp (by decide)
    · rcases List.mem_cons.mp h with h2 | h2
      · subst h2
        exact (badB_false_iff ansGood2).mp (by decide)
      · simp at h2
  refine ⟨?_, ?_, ?_⟩
  · exact (c1_answers_prepass_atomicity pAnswersBad (.ok ()) cfSample [ansGood1, ansBad]
      rfl rfl rfl rfl rfl hsafeBad).1
      ⟨ansBad, by simp, fun hg => absurd ((badB_false_iff ansBad).mpr hg) (by decide)⟩
  · exact ((c1_answers_prepass_atomicity pAnswersGood (.ok ()) cfSample [ansGood1, ansGood2]
      rfl rfl rfl rfl rfl hsafeGood).2.1 (by simp) hgood).2.1 rfl
  · exact ((c1_answers_prepass_atomicity pAnswersGood (.error "boom") cfSample
      [ansGood1, ansGood2] rfl rfl rfl rfl rfl hsafeGood).2.1 (by simp) hgood).2.2 "boom" rfl

/-- `handleEvent` on a payload with valid common fields: store success
yields 200 with the row committed; store failure yields 500 carrying the
underlying message, with the call attempted but nothing committed. -/
lemma handleEvent_spec (p : JSValue) (cf : CommonFields)
    (hcf : validateCommonFields p = .ok cf) :
    (handleEvent p (.ok ()) =
      .ok ⟨⟨200, templateStr (getFieldD p "eventName") ++ " event received (logged server-side)",
            none⟩,
           [.single (.eventRow cf.userId cf.sessionId (getFieldD p "eventName") cf.timestamp)],
           [.eventRow cf.userId cf.sessionId (getFieldD p "eventName") cf.timestamp]⟩) ∧
    (∀ m, handleEvent p (.error m) =
      .ok ⟨⟨500, "Error logging " ++ templateStr (getFieldD p "eventName") ++ " event", some m⟩,
           [.single (.eventRow cf.userId cf.sessionId (getFieldD p "eventName") cf.timestamp)],
           []⟩) := by
  obtain ⟨hp1, hp2⟩ := vcf_safe p cf hcf
  constructor
  · unfold handleEvent
    simp only [hcf, getField_safe p "eventName" hp1 hp2]
    rfl
  · intro m
    unfold handleEvent
    simp only [hcf, getField_safe p "eventName" hp1 hp2]
    rfl

/-- C7: for an object payload with `type: "event"`, the consolidated
handler dispatches to the event insert only when `eventName` is exactly
`test_started` or `test_finished`; any other `eventName` is answered with
the 400 invalid-payload-type response and no persistence call. -/
theorem c7_event_dispatch_key (p : JSValue) (db : Except String Unit)
    (htr : truthy p = true) (hob : isObjType p = true)
    (hty : getFieldD p "type" = .vStr "event") :
    ((∀ s, getFieldD p "eventName" = .vStr s →
        s ≠ "test_started" ∧ s ≠ "test_finished") →
      mainHandler "POST" p db =
        ⟨⟨400, "Invalid payload type specified: 'event'", none⟩, [], []⟩) ∧
    (∀ cf, validateCommonFields p = .ok cf →
      (getFieldD p "eventName" = .vStr "test_started" ∨
        getFieldD p "eventName" = .vStr "test_finished") →
      (mainHandler "POST" p db).calls =
        [.single (.eventRow cf.userId cf.sessionId (getFieldD p "eventName") cf.timestamp)]) := by
  constructor
  · intro hev
    rw [main_post]
    exact handlePost_ok p db _ (route_event_nomatch p db htr hob hty hev)
  · intro cf hcf hev
    cases db with
    | ok u =>
      cases u
      rw [main_post, handlePost_ok p _ _
        (by rw [route_event_match p _ htr hob hty hev, (handleEvent_spec p cf hcf).1])]
    | error m =>
      rw [main_post, handlePost_ok p _ _
        (by rw [route_event_match p _ htr hob hty hev, (handleEvent_spec p cf hcf).2 m])]

/-- C7 witness: `eventName: "test_aborted"` with `type: "event"` gets the
400 invalid-payload-type response and no call; `test_started` reaches the
event insert. -/
theorem c7_event_dispatch_key_witness :
    mainHandler "POST" badEventPayload (.ok ()) =
      ⟨⟨400, "Invalid payload type specified: 'event'", none⟩, [], []⟩ ∧
    (mainHandler "POST" eventPayload (.ok ())).calls =
      [.single (.eventRow "u1" "s1" (.vStr "test_started") "t1")] := by
  constructor
  · apply (c7_event_dispatch_key badEventPayload (.ok ()) rfl rfl rfl).1
    intro s hs
    rw [show getFieldD badEventPayload "eventName" = .vStr "test_aborted" from rfl] at hs
    have he := JSValue.vStr.inj hs
    exact ⟨by rw [← he]; decide, by rw [← he]; decide⟩
  · exact (c7_event_dispatch_key eventPayload (.ok ()) rfl rfl rfl).2 cfSample rfl (Or.inl rfl)

/-- C3 (corrected for the consolidated handler): with a valid event
payload, a store failure during the single insert produces a 500 response
carrying the underlying error message and commits nothing, and a 200
response is only produced when the store call succeeded and the row was
committed. -/
theorem c3_event_store_failure_propagates (p : JSValue) (cf : CommonFields)
    (htr : truthy p = true) (hob : isObjType p = true)
    (hty : getFieldD p "type" = .vStr "event")
    (hev : getFieldD p "eventName" = .vStr "test_started" ∨
      getFieldD p "eventName" = .vStr "test_finished")
    (hcf : validateCommonFields p = .ok cf) :
    (∀ m, mainHandler "POST" p (.error m) =
      ⟨⟨500, "Error logging " ++ templateStr (getFieldD p "eventName") ++ " event", some m⟩,
       [.single (.eventRow cf.userId cf.sessionId (getFieldD p "eventName") cf.timestamp)],
       []⟩) ∧
    (∀ db, (mainHandler "POST" p db).resp.status = 200 →
      db = .ok () ∧ (mainHandler "POST" p db).committed =
        [.eventRow cf.userId cf.sessionId (getFieldD p "eventName") cf.timestamp]) := by
  constructor
  · intro m
    rw [main_post]
    exact handlePost_ok p _ _
      (by rw [route_event_match p _ htr hob hty hev, (handleEvent_spec p cf hcf).2 m])
  · intro db
    cases db with
    | ok u =>
      cases u
      intro _
      refine ⟨rfl, ?_⟩
      rw [main_post, handlePost_ok p _ _
        (by rw [route_event_match p _ htr hob hty hev, (handleEvent_spec p cf hcf).1])]
    | error m =>
      intro hst
      exfalso
      rw [main_post, handlePost_ok p _ _
        (by rw [route_event_match p _ htr hob hty hev, (handleEvent_spec p cf hcf).2 m])] at hst
      simp at hst

/-- C3 witness: a failing store turns a valid `test_started` event
request into a 500 response carrying the message, with nothing
committed. -/
theorem c3_event_store_failure_propagates_witness :
    mainHandler "POST" eventPayload (.error "db down") =
      ⟨⟨500, "Error logging " ++ templateStr (getFieldD eventPayload "eventName") ++ " event",
        some "db down"⟩,
       [.single (.eventRow "u1" "s1" (.vStr "test_started") "t1")], []⟩ :=
  (c3_event_store_failure_propagates eventPayload cfSample rfl rfl rfl (Or.inl rfl) rfl).1
    "db down"

/-- C3 counterexample: the first log-answers variant (the code cited by
the claim at lines 359-372) answers 200 even though the event insert
failed and nothing was committed — it never returns 500 there, contrary
to the claim. -/
theorem c3_variant_swallows_store_failure :
    (logAnswersV1 "POST" eventPayload (.error "connection refused")).resp.status = 200 ∧
    (logAnswersV1 "POST" eventPayload (.error "connection refused")).committed = [] ∧
    (logAnswersV1 "POST" eventPayload (.error "connection refused")).calls =
      [.single (.eventRow "u1" "s1" (.vStr "test_started") "t1")] :=
  ⟨rfl, rfl, rfl⟩

/-- A falsy `answer_label` is replaced by `'N/A'` in the built statement. -/
lemma buildAnswerQuery_label_falsy (cf : CommonFields) (a : JSValue)
    (h : truthy (getFieldD a "answer_label") = false) :
    answerLabelOf (buildAnswerQuery cf a) = some (.vStr "N/A") := by
  simp [buildAnswerQuery, answerLabelOf, jsOr, h]

/-- No built statement carries an empty-string `answer_label`. -/
lemma buildAnswerQuery_label_ne_empty (cf : CommonFields) (a : JSValue) :
    answerLabelOf (buildAnswerQuery cf a) ≠ some (.vStr "") := by
  intro h
  simp only [buildAnswerQuery, answerLabelOf, jsOr, Option.some.injEq] at h
  split at h
  · rename_i ht
    rw [h] at ht
    simp [truthy] at ht
  · exact absurd (JSValue.vStr.inj h) (by decide)

/-- C10: in the query construction shared by `handleAnswers` and the
second and third log-answers variants, an element whose `answer_label` is
falsy (absent, `null`, empty string, `0`, ...) gets the `'N/A'` label
parameter, and consequently no committed answers row of those paths ever
carries an empty-string label. -/
theorem c10_falsy_label_replaced :
    (∀ cf a, truthy (getFieldD a "answer_label") = false →
      answerLabelOf (buildAnswerQuery cf a) = some (.vStr "N/A")) ∧
    (∀ cf a, answerLabelOf (buildAnswerQuery cf a) ≠ some (.vStr "")) ∧
    (∀ p db hr, handleAnswers p db = .ok hr →
      ∀ r ∈ hr.committed, answerLabelOf r ≠ some (.vStr "")) ∧
    (∀ cf av db, ∀ r ∈ (v2AnswersBranch cf av db).committed,
      answerLabelOf r ≠ some (.vStr "")) := by
  refine ⟨buildAnswerQuery_label_falsy, buildAnswerQuery_label_ne_empty, ?_, ?_⟩
  · intro p db hr h r hr2
    cases h1 : validateCommonFields p with
    | error e =>
      simp only [handleAnswers, h1] at h
      exact Except.noConfusion h
    | ok cf =>
      cases h2 : getField p "answers" with
      | error e =>
        simp only [handleAnswers, h1, h2] at h
        exact Except.noConfusion h
      | ok av =>
        cases h3 : validateAnswers av with
        | error e =>
          simp only [handleAnswers, h1, h2, h3] at h
          exact Except.noConfusion h
        | ok answers =>
          cases db with
          | ok u =>
            simp only [handleAnswers, h1, h2, h3, execCall, rowsOf] at h
            have hel := Except.ok.inj h
            subst hel
            have hr3 : r ∈ answers.map (buildAnswerQuery cf) := hr2
            rcases List.mem_map.mp hr3 with ⟨a, _, rfl⟩
            exact buildAnswerQuery_label_ne_empty cf a
          | error m =>
            simp only [handleAnswers, h1, h2, h3, execCall, rowsOf] at h
            have hel := Except.ok.inj h
            subst hel
            have hr3 : r ∈ ([] : List Row) := hr2
            simp at hr3
  · intro cf av db r hr2
    cases av with
    | vArr answers =>
      cases hempty : answers.isEmpty with
      | true =>
        simp only [v2AnswersBranch, hempty, if_true] at hr2
        simp at hr2
      | false =>
        cases hq : v2MapQueries cf answers with
        | error e =>
          cases e <;>
            simp only [v2AnswersBranch, hempty, Bool.false_eq_true, if_false, hq] at hr2 <;>
            simp at hr2
        | ok queries =>
          cases db with
          | ok u =>
            simp only [v2AnswersBranch, hempty, Bool.false_eq_true, if_false, hq,
              execCall, rowsOf] at hr2
            rcases v2MapQueries_rows cf answers queries hq r hr2 with ⟨a, rfl⟩
            exact buildAnswerQuery_label_ne_empty cf a
          | error m =>
            simp only [v2AnswersBranch, hempty, Bool.false_eq_true, if_false, hq,
              execCall, rowsOf] at hr2
            simp at hr2
    | vUndefined => simp [v2AnswersBranch] at hr2
    | vNull => simp [v2AnswersBranch] at hr2
    | vBool b => simp [v2AnswersBranch] at hr2
    | vNum n => simp [v2AnswersBranch] at hr2
    | vStr s => simp [v2AnswersBranch] at hr2
    | vObj fs => simp [v2AnswersBranch] at hr2

/-- C10 witness: a client-supplied empty-string label is stored as
`'N/A'`. -/
theorem c10_falsy_label_replaced_witness :
    answerLabelOf (buildAnswerQuery cfSample ansEmptyLabel) = some (.vStr "N/A") :=
  c10_falsy_label_replaced.1 cfSample ansEmptyLabel rfl

/-- Every result returned (not thrown) by `handleEvent` is a 200 or 500. -/
lemma handleEvent_status (p : JSValue) (db : Except String Unit) (hr : HandlerResult)
    (h : handleEvent p db = .ok hr) :
    hr.resp.status = 200 ∨ hr.resp.status = 500 := by
  cases h1 : validateCommonFields p with
  | error e =>
    simp only [handleEvent, h1] at h
    exact Except.noConfusion h
  | ok cf =>
    cases h2 : getField p "eventName" with
    | error e =>
      simp only [handleEvent, h1, h2] at h
      exact Except.noConfusion h
    | ok en =>
      cases db with
      | ok u =>
        simp only [handleEvent, h1, h2, execCall, rowsOf] at h
        have hel := Except.ok.inj h
        subst hel
        exact Or.inl rfl
      | error m =>
        simp only [handleEvent, h1, h2, execCall, rowsOf] at h
        have hel := Except.ok.inj h
        subst hel
        exact Or.inr rfl

/-- Every result returned by `handleAnswers` is a 201 or 500. -/
lemma handleAnswers_status (p : JSValue) (db : Except String Unit) (hr : HandlerResult)
    (h : handleAnswers p db = .ok hr) :
    hr.resp.status = 201 ∨ hr.resp.status = 500 := by
  cases h1 : validateCommonFields p with
  | error e =>
    simp only [handleAnswers, h1] at h
    exact Except.noConfusion h
  | ok cf =>
    cases h2 : getField p "answers" with
    | error e =>
      simp only [handleAnswers, h1, h2] at h
      exact Except.noConfusion h
    | ok av =>
      cases h3 : validateAnswers av with
      | error e =>
        simp only [handleAnswers, h1, h2, h3] at h
        exact Except.noConfusion h
      | ok answers =>
        cases db with
        | ok u =>
          simp only [handleAnswers, h1, h2, h3, execCall, rowsOf] at h
          have hel := Except.ok.inj h
          subst hel
          exact Or.inl rfl
        | error m =>
          simp only [handleAnswers, h1, h2, h3, execCall, rowsOf] at h
          have hel := Except.ok.inj h
          subst hel
          exact Or.inr rfl

/-- Every result returned by `handleTestResult` is a 201 or 500. -/
lemma handleTestResult_status (p : JSValue) (db : Except String Unit) (hr : HandlerResult)
    (h : handleTestResult p db = .ok hr) :
    hr.resp.status = 201 ∨ hr.resp.status = 500 := by
  cases h1 : validateCommonFields p with
  | error e =>
    simp only [handleTestResult, h1] at h
    exact Except.noConfusion h
  | ok cf =>
    cases h2 : validateTestResult p with
    | error e =>
      simp only [handleTestResult, h1, h2] at h
      exact Except.noConfusion h
    | ok rf =>
      cases db with
      | ok u =>
        simp only [handleTestResult, h1, h2, execCall, rowsOf] at h
        have hel := Except.ok.inj h
        subst hel
        exact Or.inl rfl
      | error m =>
        simp only [handleTestResult, h1, h2, execCall, rowsOf] at h
        have hel := Except.ok.inj h
        subst hel
        exact Or.inr rfl

/-- Every result returned by the routing block is a 200, 201, 400 or
500. -/
lemma routeRequest_status (p : JSValue) (db : Except String Unit) (hr : HandlerResult)
    (h : routeRequest p db = .ok hr) :
    hr.resp.status = 200 ∨ hr.resp.status = 201 ∨ hr.resp.status = 400 ∨
      hr.resp.status = 500 := by
  unfold routeRequest at h
  split at h
  · have hel := Except.ok.inj h
    subst hel
    exact Or.inr (Or.inr (Or.inl rfl))
  · split at h
    · rcases handleEvent_status p db hr h with h2 | h2
      · exact Or.inl h2
      · exact Or.inr (Or.inr (Or.inr h2))
    · split at h
      · rcases handleAnswers_status p db hr h with h2 | h2
        · exact Or.inr (Or.inl h2)
        · exact Or.inr (Or.inr (Or.inr h2))
      · split at h
        · rcases handleTestResult_status p db hr h with h2 | h2
          · exact Or.inr (Or.inl h2)
          · exact Or.inr (Or.inr (Or.inr h2))
        · have hel := Except.ok.inj h
          subst hel
          exact Or.inr (Or.inr (Or.inl rfl))

/-- The guarded POST path of the consolidated handler always responds
with a 200, 201, 400 or 500. -/
lemma handlePost_status (p : JSValue) (db : Except String Unit) :
    (handlePost p db).resp.status = 200 ∨ (handlePost p db).resp.status = 201 ∨
      (handlePost p db).resp.status = 400 ∨ (handlePost p db).resp.status = 500 := by
  cases hro : routeRequest p db with
  | ok r =>
    rw [handlePost_ok p db r hro]
    exact routeRequest_status p db r hro
  | error e =>
    cases e with
    | validationError m =>
      unfold handlePost
      rw [hro]
      exact Or.inr (Or.inr (Or.inl rfl))
    | syntaxError m =>
      unfold handlePost
      rw [hro]
      exact Or.inr (Or.inr (Or.inl rfl))
    | genericError m =>
      unfold handlePost
      rw [hro]
      exact Or.inr (Or.inr (Or.inr rfl))
    | flaggedError m =>
      unfold handlePost
      rw [hro]
      exact Or.inr (Or.inr (Or.inr rfl))
    | typeError m =>
      unfold handlePost
      rw [hro]
      exact Or.inr (Or.inr (Or.inr rfl))

/-- Every result returned by the variant-one answers branch is a 400 or
201. -/
lemma v1Answers_status (u s t : String) (av : JSValue) (db : Except String Unit)
    (hr : HandlerResult) (h : v1Answers u s t av db = .ok hr) :
    hr.resp.status = 400 ∨ hr.resp.status = 201 := by
  cases av with
  | vArr answers =>
    cases hempty : answers.isEmpty with
    | true =>
      simp only [v1Answers, hempty, if_true] at h
      have hel := Except.ok.inj h
      subst hel
      exact Or.inl rfl
    | false =>
      cases hq : v1MapQueries u s t answers with
      | error e =>
        simp only [v1Answers, hempty, Bool.false_eq_true, if_false, hq] at h
        exact Except.noConfusion h
      | ok queries =>
        cases db with
        | ok uu =>
          simp only [v1Answers, hempty, Bool.false_eq_true, if_false, hq, execCall,
            rowsOf] at h
          have hel := Except.ok.inj h
          subst hel
          exact Or.inr rfl
        | error m =>
          simp only [v1Answers, hempty, Bool.false_eq_true, if_false, hq, execCall] at h
          exact Except.noConfusion h
  | vUndefined =>
    simp only [v1Answers] at h
    have hel := Except.ok.inj h
    subst hel
    exact Or.inl rfl
  | vNull =>
    simp only [v1Answers] at h
    have hel := Except.ok.inj h
    subst hel
    exact Or.inl rfl
  | vBool b =>
    simp only [v1Answers] at h
    have hel := Except.ok.inj h
    subst hel
    exact Or.inl rfl
  | vNum n =>
    simp only [v1Answers] at h
    have hel := Except.ok.inj h
    subst hel
    exact Or.inl rfl
  | vStr s2 =>
    simp only [v1Answers] at h
    have hel := Except.ok.inj h
    subst hel
    exact Or.inl rfl
  | vObj fs =>
    simp only [v1Answers] at h
    have hel := Except.ok.inj h
    subst hel
    exact Or.inl rfl

/-- Every result returned by the variant-one routing block is a 400, 200
or 201. -/
lemma v1Route_status (p : JSValue) (db : Except String Unit) (hr : HandlerResult)
    (h : v1Route p db = .ok hr) :
    hr.resp.status = 400 ∨ hr.resp.status = 200 ∨ hr.resp.status = 201 := by
  unfold v1Route at h
  split at h
  · have hel := Except.ok.inj h
    subst hel
    exact Or.inl rfl
  · split at h
    · have hel := Except.ok.inj h
      subst hel
      exact Or.inl rfl
    · split at h
      · cases db with
        | ok u =>
          simp only [execCall, rowsOf] at h
          have hel := Except.ok.inj h
          subst hel
          exact Or.inr (Or.inl rfl)
        | error m =>
          simp only [execCall] at h
          have hel := Except.ok.inj h
          subst hel
          exact Or.inr (Or.inl rfl)
      · split at h
        · rcases v1Answers_status _ _ _ _ _ _ h with h2 | h2
          · exact Or.inl h2
          · exact Or.inr (Or.inr h2)
        · have hel := Except.ok.inj h
          subst hel
          exact Or.inl rfl

/-- The guarded POST path of the first log-answers variant always
responds with a 200, 201, 400 or 500. -/
lemma v1Post_status (b : JSValue) (db : Except String Unit) :
    (v1Post b db).resp.status = 200 ∨ (v1Post b db).resp.status = 201 ∨
      (v1Post b db).resp.status = 400 ∨ (v1Post b db).resp.status = 500 := by
  cases hro : v1Route b db with
  | ok r =>
    have heq : v1Post b db = r := by
      unfold v1Post
      rw [hro]
    rw [heq]
    rcases v1Route_status b db r hro with h | h | h
    · exact Or.inr (Or.inr (Or.inl h))
    · exact Or.inl h
    · exact Or.inr (Or.inl h)
  | error e =>
    have heq : v1Post b db =
        (if startsWithB (errMsg e) "Invalid answer format" ||
            startsWithB (errMsg e) "Missing" then
          (⟨⟨400, "Data validation failed", some (errMsg e)⟩, [], []⟩ : HandlerResult)
        else
          ⟨⟨500, "Internal Server Error processing request.", some (errMsg e)⟩, [], []⟩) := by
      unfold v1Post
      rw [hro]
    rw [heq]
    split
    · exact Or.inr (Or.inr (Or.inl rfl))
    · exact Or.inr (Or.inr (Or.inr rfl))

/-- C4: for every method, body and store outcome, both the consolidated
handler and the first log-answers variant return a response whose status
is one of 200, 201, 400, 405 or 500 — every thrown error (validation
failure, type error from reads on null, or store failure) is caught at
the outer boundary and mapped to a response. -/
theorem c4_all_errors_mapped_to_responses (method : String) (body : JSValue)
    (db : Except String Unit) :
    ((mainHandler method body db).resp.status = 200 ∨
     (mainHandler method body db).resp.status = 201 ∨
     (mainHandler method body db).resp.status = 400 ∨
     (mainHandler method body db).resp.status = 405 ∨
     (mainHandler method body db).resp.status = 500) ∧
    ((logAnswersV1 method body db).resp.status = 200 ∨
     (logAnswersV1 method body db).resp.status = 201 ∨
     (logAnswersV1 method body db).resp.status = 400 ∨
     (logAnswersV1 method body db).resp.status = 405 ∨
     (logAnswersV1 method body db).resp.status = 500) := by
  constructor
  · unfold mainHandler
    split
    · exact Or.inl rfl
    · split
      · exact Or.inr (Or.inr (Or.inr (Or.inl rfl)))
      · rcases handlePost_status body db with h | h | h | h
        · exact Or.inl h
        · exact Or.inr (Or.inl h)
        · exact Or.inr (Or.inr (Or.inl h))
        · exact Or.inr (Or.inr (Or.inr (Or.inr h)))
  · unfold logAnswersV1
    split
    · exact Or.inl rfl
    · split
      · exact Or.inr (Or.inr (Or.inr (Or.inl rfl)))
      · rcases v1Post_status body db with h | h | h | h
        · exact Or.inl h
        · exact Or.inr (Or.inl h)
        · exact Or.inr (Or.inr (Or.inl h))
        · exact Or.inr (Or.inr (Or.inr (Or.inr h)))
